import Mathlib

/-!
# OpenGlove firmware: calibration filters, sensors and finger encoding

A shallow embedding of `Filter.hpp`, `Sensor.hpp` and `Finger.hpp`.

Numeric conventions of the embedding:

* C++ `int` values are `Int` (no wrap-around is modelled);
* C++ `float` values are exact rationals `ℚ`; a float expression that divides
  by zero has a non-finite value (an infinity or a NaN) and is `none`;
* the conversion of a float to `int` truncates toward zero (`truncToInt`); the
  conversion of a non-finite float to `int` is undefined behaviour, so a
  function that performs it returns `none`;
* `MinMaxFilter::filter` stretches the learned range onto the output range,
  so its remapped value can exceed every `int`: there the conversion is
  modelled with the width of `int` (`floatToInt`), and a value that does not
  fit is undefined as well.
-/

namespace OpenGloves

/-! ## Numeric helpers -/

/-- Conversion of a finite `float` to `int`: truncation toward zero. -/
def truncToInt (q : ℚ) : Int := Int.tdiv q.num q.den

/-- The range of the C++ type `int` on the target: `INT_MAX` is at least 32767
(16 bits, as on the AVR boards; 32 bits on the ESP32) and `INT_MIN` is
`-INT_MAX - 1`. -/
structure IntRange where
  INT_MAX : Int
  wide : 32767 ≤ INT_MAX

/-- The least value of the type `int`. -/
def IntRange.INT_MIN (I : IntRange) : Int := -I.INT_MAX - 1

/-- The 16-bit `int` of the AVR boards (`ANALOG_MAX` 1023). -/
def int16 : IntRange := ⟨32767, by decide⟩

/-- The 32-bit `int` of the ESP32 (`ANALOG_MAX` 4095). -/
def int32 : IntRange := ⟨2147483647, by decide⟩

/-- Conversion of a finite `float` to an `int` of the given range: the value
truncated toward zero when the type can represent it, undefined otherwise. -/
def floatToInt (I : IntRange) (q : ℚ) : Option Int :=
  if I.INT_MIN ≤ truncToInt q ∧ truncToInt q ≤ I.INT_MAX then some (truncToInt q) else none

/-- The Arduino macro
`constrain(amt,low,high) ((amt)<(low)?(low):((amt)>(high)?(high):(amt)))`. -/
def constrain (amt low high : Int) : Int :=
  if amt < low then low else if amt > high then high else amt

/-- `accurateMap` of `Filter.hpp`, lines 3-5:
`(x - in_min) * (out_max - out_min) / (in_max - in_min) + out_min` on floats.
The result is `none` (non-finite) when the divisor `in_max - in_min` is zero. -/
def accurateMap (x in_min in_max out_min out_max : ℚ) : Option ℚ :=
  if in_max - in_min = 0 then none
  else some ((x - in_min) * (out_max - out_min) / (in_max - in_min) + out_min)

/-! ## `MinMaxFilter<int, output_min, output_max>` (Filter.hpp, lines 35-66) -/

/-- The two private members of `MinMaxFilter`. -/
structure MinMaxFilter where
  value_min : Int
  value_max : Int
deriving DecidableEq

namespace MinMaxFilter

/-- Constructor: `value_min(output_max), value_max(output_min)`. -/
def init (output_min output_max : Int) : MinMaxFilter :=
  ⟨output_max, output_min⟩

/-- Method `reset()`. -/
def reset (output_min output_max : Int) (_s : MinMaxFilter) : MinMaxFilter :=
  ⟨output_max, output_min⟩

/-- Method `update(input)`: two consecutive `if` statements. -/
def update (s : MinMaxFilter) (input : Int) : MinMaxFilter :=
  let s1 : MinMaxFilter := if input < s.value_min then ⟨input, s.value_max⟩ else s
  if input > s1.value_max then ⟨s1.value_min, input⟩ else s1

/-- Method `filter(input)`. The early return converts
`(output_min + output_max) / 2.0f` to `int`, a value between the two `int`
template arguments; otherwise the float returned by `accurateMap` is converted
to `int` (`T output = accurateMap(...)`), which is undefined when it does not
fit, and only then constrained. -/
def filter (I : IntRange) (output_min output_max : Int) (s : MinMaxFilter) (input : Int) :
    Option Int :=
  if s.value_min > s.value_max then
    some (truncToInt (((output_min + output_max : Int) : ℚ) / 2))
  else
    (accurateMap input s.value_min s.value_max output_min output_max).bind fun v =>
      (floatToInt I v).map fun output => constrain output output_min output_max

/-- A sequence of `update` calls, first sample first. -/
def updates (s : MinMaxFilter) (xs : List Int) : MinMaxFilter :=
  xs.foldl update s

end MinMaxFilter

/-! ## `Filter<int>`, `Calibrated`, `Sensor`, `FilteredSensor` -/

/-- Interface `Filter<int>` (Filter.hpp, lines 28-33): the virtual methods
`reset`, `update`, `filter` as functions on the state `S` of the filter object. -/
structure Filter (S : Type) where
  reset : S → S
  update : S → Int → S
  filter : S → Int → Option Int

/-- The methods of `MinMaxFilter<int, output_min, output_max>`. -/
def MinMaxFilter.ops (I : IntRange) (output_min output_max : Int) : Filter MinMaxFilter where
  reset := MinMaxFilter.reset output_min output_max
  update := MinMaxFilter.update
  filter := MinMaxFilter.filter I output_min output_max

/-- The methods of `DummyFilter<int>` (Filter.hpp, lines 135-143), which has no members. -/
def DummyFilter.ops : Filter Unit where
  reset := fun s => s
  update := fun s _ => s
  filter := fun _ input => some input

/-- An object of a class derived from `Sensor`: the member `calibrate` of the
base class `Calibrated` and the members `σ` of the derived class. -/
structure Sensor (σ : Type) where
  calibrate : Bool
  members : σ
deriving DecidableEq

namespace Sensor

/-- Method `Calibrated::enableCalibration`, which no sensor class overrides. -/
def enableCalibration {σ : Type} (s : Sensor σ) : Sensor σ := ⟨true, s.members⟩

/-- Method `Calibrated::disableCalibration`, which no sensor class overrides. -/
def disableCalibration {σ : Type} (s : Sensor σ) : Sensor σ := ⟨false, s.members⟩

end Sensor

/-- The pure virtual methods of `Sensor` as implemented by one derived class
with members `σ`; `ρ` is what the physical inputs of the sensor deliver on one
read. -/
structure SensorClass (σ ρ : Type) where
  getValue : Sensor σ → ρ → Option Int × Sensor σ
  resetCalibration : Sensor σ → Sensor σ

namespace FilteredSensor

/-- Method `FilteredSensor<FilterType>::getValue` (Sensor.hpp, lines 23-29);
`new_value` is what the pure virtual `readInput()` returned. -/
def getValue {S : Type} (F : Filter S) (s : Sensor S) (new_value : Int) :
    Option Int × Sensor S :=
  let s1 : Sensor S :=
    if s.calibrate then ⟨s.calibrate, F.update s.members new_value⟩ else s
  (F.filter s1.members new_value, s1)

/-- Method `FilteredSensor<FilterType>::resetCalibration`. -/
def resetCalibration {S : Type} (F : Filter S) (s : Sensor S) : Sensor S :=
  ⟨s.calibrate, F.reset s.members⟩

/-- The class `FilteredSensor<FilterType>` (and `ResistiveSensor<FilterType>`,
whose `readInput` is the analog read of its pin). -/
def cls {S : Type} (F : Filter S) : SensorClass S Int where
  getValue := getValue F
  resetCalibration := resetCalibration F

end FilteredSensor

/-! ## Configuration and encoding parameters -/

/-- Build-time constants of `Config.h` used by the fingers. `ANALOG_MAX` is
defined there as the literal 1023 or 4095; the two knuckle dependency fractions
are not among the sources and are parameters. -/
structure Config where
  ANALOG_MAX : Nat
  KNUCKLE_DEPENDENCY_START : ℚ
  KNUCKLE_DEPENDENCY_END : ℚ

/-- The declarations of `EncodedInput` (DriverProtocol.hpp, not among the
sources) that `Finger.hpp` uses, taken as parameters. A format applied to the
type tag and a value gives the text that `printf` formatting produces. -/
structure EncodedInput where
  CurlSize : Int
  KnuckleSize : Int
  SplaySize : Int
  KnuckleFingerOffset : Nat
  CurlFormat : Char → Int → List Char
  knuckleFormat : Nat → Char → Int → List Char
  SplayFormat : Char → Int → List Char

/-- Return value of the C library call `snprintf(buf, size, format, ...)`: the
length of the complete formatted text, whether or not it fits in `size` bytes
(at most `size - 1` characters and a terminator are stored). -/
def snprintf (_size : Int) (text : List Char) : Int := text.length

/-- A size paired with the text a format and its arguments produce: a field
of an encoded record with its per-field size (`encodedFields`), or one
`snprintf` call with the size passed to it (`snprintfCalls`). -/
abbrev Field := Int × List Char

/-- Every text, with its terminator, fits the size it is paired with. -/
def FieldsFit (fields : List Field) : Prop :=
  ∀ p ∈ fields, (p.2.length : Int) < p.1

/-! ## Fingers (Finger.hpp) -/

/-- Members of the base class `Finger`, with `calibrate` of `Calibrated`. -/
structure Finger where
  type : Char
  invert_curl : Bool
  invert_splay : Bool
  calibrate : Bool
deriving DecidableEq

/-- The virtual methods of a finger class with object state `β`; `ρ` is what
its sensors deliver on one `readInput`. `encode` is the method on an object of
exactly this class; `encodeAs n` is the same method body on the base-class
subobject of a derived object whose virtual `getEncodedSize()` returns `n`
(the qualified call `BaseFinger::encode(output)` of `SplaySupport`). -/
structure FingerClass (β ρ : Type) where
  type : β → Char
  readInput : β → ρ → Option β
  getEncodedSize : β → Int
  encode : β → Int
  encodeAs : Int → β → Int
  curlValue : β → Int
  splayValue : β → Int
  resetCalibration : β → β
  enableCalibration : β → β
  disableCalibration : β → β

/-! ### `ConfigurableFinger<false, 1, _>`: one knuckle, no splay -/

/-- Members of `ConfigurableFinger<false, 1, _>` (Finger.hpp, lines 35-85). -/
structure ConfigurableFinger1 (σ : Type) extends Finger where
  sensor : Sensor σ
  value : Int

namespace ConfigurableFinger1

variable {σ ρ : Type}

/-- Method `readInput()`: `value = sensor->getValue()`; `r` is what the
physical input of the sensor delivers. -/
def readInput (C : SensorClass σ ρ) (f : ConfigurableFinger1 σ) (r : ρ) :
    Option (ConfigurableFinger1 σ) :=
  let res := C.getValue f.sensor r
  res.1.map fun v => { f with sensor := res.2, value := v }

/-- Method `getEncodedSize()`. -/
def getEncodedSize (E : EncodedInput) (_f : ConfigurableFinger1 σ) : Int :=
  E.CurlSize

/-- Method `encode(output)`: the value it returns. The size passed to
`snprintf` is the result `encodedSize` of the unqualified, virtual call
`getEncodedSize()`, which is that of the most derived class of the object. -/
def encode (E : EncodedInput) (encodedSize : Int) (f : ConfigurableFinger1 σ) : Int :=
  snprintf encodedSize (E.CurlFormat f.type f.value)

/-- The one field `encode` writes, with its per-field size `CurlSize`. -/
def encodedFields (E : EncodedInput) (f : ConfigurableFinger1 σ) : List Field :=
  [(E.CurlSize, E.CurlFormat f.type f.value)]

/-- The `snprintf` call of `encode` with the size passed to it. -/
def snprintfCalls (E : EncodedInput) (encodedSize : Int) (f : ConfigurableFinger1 σ) :
    List Field :=
  [(encodedSize, E.CurlFormat f.type f.value)]

/-- Method `curlValue()`. -/
def curlValue (f : ConfigurableFinger1 σ) : Int := f.value

/-- Method `splayValue()`: `ANALOG_MAX / 2` in `int` arithmetic. -/
def splayValue (cfg : Config) (_f : ConfigurableFinger1 σ) : Int :=
  (cfg.ANALOG_MAX : Int) / 2

/-- Method `mapOntoCalibratedRange(input, min, max)`. -/
def mapOntoCalibratedRange (_f : ConfigurableFinger1 σ) (input _min _max : Int) : Int :=
  input

/-- Method `resetCalibration()`. -/
def resetCalibration (C : SensorClass σ ρ) (f : ConfigurableFinger1 σ) :
    ConfigurableFinger1 σ :=
  { f with sensor := C.resetCalibration f.sensor }

/-- Method `enableCalibration()`. -/
def enableCalibration (f : ConfigurableFinger1 σ) : ConfigurableFinger1 σ :=
  { f with sensor := f.sensor.enableCalibration }

/-- Method `disableCalibration()`. -/
def disableCalibration (f : ConfigurableFinger1 σ) : ConfigurableFinger1 σ :=
  { f with sensor := f.sensor.disableCalibration }

/-- The sensors the finger owns. -/
def ownedSensors (f : ConfigurableFinger1 σ) : List (Sensor σ) := [f.sensor]

/-- The class `ConfigurableFinger<false, 1, _>`. -/
def cls (C : SensorClass σ ρ) (cfg : Config) (E : EncodedInput) :
    FingerClass (ConfigurableFinger1 σ) ρ where
  type := fun f => f.type
  readInput := readInput C
  getEncodedSize := getEncodedSize E
  encode := fun f => encode E (getEncodedSize E f) f
  encodeAs := fun encodedSize f => encode E encodedSize f
  curlValue := curlValue
  splayValue := splayValue cfg
  resetCalibration := resetCalibration C
  enableCalibration := enableCalibration
  disableCalibration := disableCalibration

end ConfigurableFinger1

/-! ### `ConfigurableFinger<false, 2, knuckle_offset>`: two knuckles, no splay -/

/-- Members of `ConfigurableFinger<false, 2, knuckle_offset>` (Finger.hpp,
lines 90-160): `Sensor* sensors[2]` and `int values[3]`. -/
structure ConfigurableFinger2 (σ : Type) extends Finger where
  sensors : Sensor σ × Sensor σ
  values : Int × Int × Int

namespace ConfigurableFinger2

variable {σ ρ : Type}

/-- The local `constexpr int min = ANALOG_MAX * KNUCKLE_DEPENDENCY_START`. -/
def dependencyMin (cfg : Config) : Int :=
  truncToInt ((cfg.ANALOG_MAX : ℚ) * cfg.KNUCKLE_DEPENDENCY_START)

/-- The local `constexpr int max = ANALOG_MAX * KNUCKLE_DEPENDENCY_END`. -/
def dependencyMax (cfg : Config) : Int :=
  truncToInt ((cfg.ANALOG_MAX : ℚ) * cfg.KNUCKLE_DEPENDENCY_END)

/-- The right-hand side of the assignment to `values[2]` in `readInput`
(Finger.hpp, line 105), for `values[1] = v1`, converted to `int`. -/
def thirdKnuckle (cfg : Config) (v1 : Int) : Option Int :=
  (accurateMap (constrain v1 (dependencyMin cfg) (dependencyMax cfg))
    (dependencyMin cfg) (dependencyMax cfg) 0 cfg.ANALOG_MAX).map truncToInt

/-- Method `readInput()`: the two sensors are read in order, then the third
knuckle is derived from the second; `r` is what the two physical inputs deliver. -/
def readInput (C : SensorClass σ ρ) (cfg : Config) (f : ConfigurableFinger2 σ)
    (r : ρ × ρ) : Option (ConfigurableFinger2 σ) :=
  let res0 := C.getValue f.sensors.1 r.1
  let res1 := C.getValue f.sensors.2 r.2
  res0.1.bind fun v0 =>
  res1.1.bind fun v1 =>
  (thirdKnuckle cfg v1).map fun v2 =>
    { f with sensors := (res0.2, res1.2), values := (v0, v1, v2) }

/-- Method `getEncodedSize()`. -/
def getEncodedSize (E : EncodedInput) (_f : ConfigurableFinger2 σ) : Int :=
  E.KnuckleSize + E.KnuckleSize + E.KnuckleSize - 2

/-- Method `encode(output)`: the value it returns, the loop over `i = 0, 1, 2`
written out. -/
def encode (E : EncodedInput) (knuckle_offset : Nat) (f : ConfigurableFinger2 σ) : Int :=
  let offset0 : Int := 0
  let offset1 := offset0 +
    snprintf E.KnuckleSize (E.knuckleFormat (0 + knuckle_offset) f.type f.values.1)
  let offset2 := offset1 +
    snprintf E.KnuckleSize (E.knuckleFormat (1 + knuckle_offset) f.type f.values.2.1)
  let offset3 := offset2 +
    snprintf E.KnuckleSize (E.knuckleFormat (2 + knuckle_offset) f.type f.values.2.2)
  offset3

/-- The three fields `encode` writes, each with its per-field size
`KnuckleSize`, which is also the size passed to its `snprintf` call. -/
def encodedFields (E : EncodedInput) (knuckle_offset : Nat) (f : ConfigurableFinger2 σ) :
    List Field :=
  [(E.KnuckleSize, E.knuckleFormat (0 + knuckle_offset) f.type f.values.1),
   (E.KnuckleSize, E.knuckleFormat (1 + knuckle_offset) f.type f.values.2.1),
   (E.KnuckleSize, E.knuckleFormat (2 + knuckle_offset) f.type f.values.2.2)]

/-- Method `curlValue()`: the `int` sum divided by `3.0f`, converted to `int`. -/
def curlValue (f : ConfigurableFinger2 σ) : Int :=
  truncToInt (((f.values.1 + f.values.2.1 + f.values.2.2 : Int) : ℚ) / 3)

/-- Method `splayValue()`. -/
def splayValue (cfg : Config) (_f : ConfigurableFinger2 σ) : Int :=
  (cfg.ANALOG_MAX : Int) / 2

/-- Method `mapOntoCalibratedRange(input, min, max)`. -/
def mapOntoCalibratedRange (_f : ConfigurableFinger2 σ) (_input _min _max : Int) : Int :=
  0

/-- Method `resetCalibration()`. -/
def resetCalibration (C : SensorClass σ ρ) (f : ConfigurableFinger2 σ) :
    ConfigurableFinger2 σ :=
  { f with sensors := (C.resetCalibration f.sensors.1, C.resetCalibration f.sensors.2) }

/-- Method `enableCalibration()`. -/
def enableCalibration (f : ConfigurableFinger2 σ) : ConfigurableFinger2 σ :=
  { f with sensors := (f.sensors.1.enableCalibration, f.sensors.2.enableCalibration) }

/-- Method `disableCalibration()`. -/
def disableCalibration (f : ConfigurableFinger2 σ) : ConfigurableFinger2 σ :=
  { f with sensors := (f.sensors.1.disableCalibration, f.sensors.2.disableCalibration) }

/-- The sensors the finger owns. -/
def ownedSensors (f : ConfigurableFinger2 σ) : List (Sensor σ) :=
  [f.sensors.1, f.sensors.2]

/-- The class `ConfigurableFinger<false, 2, knuckle_offset>`. -/
def cls (C : SensorClass σ ρ) (cfg : Config) (E : EncodedInput) (knuckle_offset : Nat) :
    FingerClass (ConfigurableFinger2 σ) (ρ × ρ) where
  type := fun f => f.type
  readInput := readInput C cfg
  getEncodedSize := getEncodedSize E
  encode := encode E knuckle_offset
  encodeAs := fun _ f => encode E knuckle_offset f
  curlValue := curlValue
  splayValue := splayValue cfg
  resetCalibration := resetCalibration C
  enableCalibration := enableCalibration
  disableCalibration := disableCalibration

end ConfigurableFinger2

/-! ### `ConfigurableFinger<false, 3, knuckle_offset>`: three knuckles, no splay -/

/-- Members of `ConfigurableFinger<false, 3, knuckle_offset>` (Finger.hpp,
lines 165-229): `Sensor* sensors[3]` and `int values[3]`. -/
structure ConfigurableFinger3 (σ : Type) extends Finger where
  sensors : Sensor σ × Sensor σ × Sensor σ
  values : Int × Int × Int

namespace ConfigurableFinger3

variable {σ ρ : Type}

/-- Method `readInput()`: the three sensors are read in order. -/
def readInput (C : SensorClass σ ρ) (f : ConfigurableFinger3 σ) (r : ρ × ρ × ρ) :
    Option (ConfigurableFinger3 σ) :=
  let res0 := C.getValue f.sensors.1 r.1
  let res1 := C.getValue f.sensors.2.1 r.2.1
  let res2 := C.getValue f.sensors.2.2 r.2.2
  res0.1.bind fun v0 =>
  res1.1.bind fun v1 =>
  res2.1.map fun v2 =>
    { f with sensors := (res0.2, res1.2, res2.2), values := (v0, v1, v2) }

/-- Method `getEncodedSize()`. -/
def getEncodedSize (E : EncodedInput) (_f : ConfigurableFinger3 σ) : Int :=
  E.KnuckleSize + E.KnuckleSize + E.KnuckleSize - 2

/-- Method `encode(output)`: the value it returns, the loop over `i = 0, 1, 2`
written out. -/
def encode (E : EncodedInput) (knuckle_offset : Nat) (f : ConfigurableFinger3 σ) : Int :=
  let offset0 : Int := 0
  let offset1 := offset0 +
    snprintf E.KnuckleSize (E.knuckleFormat (0 + knuckle_offset) f.type f.values.1)
  let offset2 := offset1 +
    snprintf E.KnuckleSize (E.knuckleFormat (1 + knuckle_offset) f.type f.values.2.1)
  let offset3 := offset2 +
    snprintf E.KnuckleSize (E.knuckleFormat (2 + knuckle_offset) f.type f.values.2.2)
  offset3

/-- The three fields `encode` writes, each with its per-field size
`KnuckleSize`, which is also the size passed to its `snprintf` call. -/
def encodedFields (E : EncodedInput) (knuckle_offset : Nat) (f : ConfigurableFinger3 σ) :
    List Field :=
  [(E.KnuckleSize, E.knuckleFormat (0 + knuckle_offset) f.type f.values.1),
   (E.KnuckleSize, E.knuckleFormat (1 + knuckle_offset) f.type f.values.2.1),
   (E.KnuckleSize, E.knuckleFormat (2 + knuckle_offset) f.type f.values.2.2)]

/-- Method `curlValue()`: the `int` sum divided by `3.0f`, converted to `int`. -/
def curlValue (f : ConfigurableFinger3 σ) : Int :=
  truncToInt (((f.values.1 + f.values.2.1 + f.values.2.2 : Int) : ℚ) / 3)

/-- Method `splayValue()`. -/
def splayValue (cfg : Config) (_f : ConfigurableFinger3 σ) : Int :=
  (cfg.ANALOG_MAX : Int) / 2

/-- Method `mapOntoCalibratedRange(input, min, max)`. -/
def mapOntoCalibratedRange (_f : ConfigurableFinger3 σ) (input _min _max : Int) : Int :=
  input

/-- Method `resetCalibration()`. -/
def resetCalibration (C : SensorClass σ ρ) (f : ConfigurableFinger3 σ) :
    ConfigurableFinger3 σ :=
  { f with sensors := (C.resetCalibration f.sensors.1, C.resetCalibration f.sensors.2.1,
      C.resetCalibration f.sensors.2.2) }

/-- Method `enableCalibration()`. -/
def enableCalibration (f : ConfigurableFinger3 σ) : ConfigurableFinger3 σ :=
  { f with sensors := (f.sensors.1.enableCalibration, f.sensors.2.1.enableCalibration,
      f.sensors.2.2.enableCalibration) }

/-- Method `disableCalibration()`. -/
def disableCalibration (f : ConfigurableFinger3 σ) : ConfigurableFinger3 σ :=
  { f with sensors := (f.sensors.1.disableCalibration, f.sensors.2.1.disableCalibration,
      f.sensors.2.2.disableCalibration) }

/-- The sensors the finger owns. -/
def ownedSensors (f : ConfigurableFinger3 σ) : List (Sensor σ) :=
  [f.sensors.1, f.sensors.2.1, f.sensors.2.2]

/-- The class `ConfigurableFinger<false, 3, knuckle_offset>`. -/
def cls (C : SensorClass σ ρ) (cfg : Config) (E : EncodedInput) (knuckle_offset : Nat) :
    FingerClass (ConfigurableFinger3 σ) (ρ × ρ × ρ) where
  type := fun f => f.type
  readInput := readInput C
  getEncodedSize := getEncodedSize E
  encode := encode E knuckle_offset
  encodeAs := fun _ f => encode E knuckle_offset f
  curlValue := curlValue
  splayValue := splayValue cfg
  resetCalibration := resetCalibration C
  enableCalibration := enableCalibration
  disableCalibration := disableCalibration

end ConfigurableFinger3

/-! ### `SplaySupport<BaseFinger>` and `ConfigurableFinger<true, k, knuckle_offset>` -/

/-- An object of `SplaySupport<BaseFinger>` (Finger.hpp, lines 236-281): the
base class subobject and the two members the template adds. -/
structure SplaySupport (β σ : Type) where
  base : β
  splay_sensor : Sensor σ
  splay_value : Int

namespace SplaySupport

variable {β σ ρ ρb : Type}

/-- Method `readInput()`: `BaseFinger::readInput()`, then the splay sensor. -/
def readInput (B : FingerClass β ρb) (C : SensorClass σ ρ) (f : SplaySupport β σ)
    (r : ρb × ρ) : Option (SplaySupport β σ) :=
  (B.readInput f.base r.1).bind fun b =>
  let res := C.getValue f.splay_sensor r.2
  res.1.map fun v => ⟨b, res.2, v⟩

/-- Method `getEncodedSize()`. -/
def getEncodedSize (B : FingerClass β ρb) (E : EncodedInput) (f : SplaySupport β σ) : Int :=
  B.getEncodedSize f.base + E.SplaySize - 1

/-- Method `encode(output)`: the value it returns. `BaseFinger::encode(output)`
runs the base body on this object, whose virtual `getEncodedSize()` returns
`encodedSize`. -/
def encode (B : FingerClass β ρb) (E : EncodedInput) (encodedSize : Int)
    (f : SplaySupport β σ) : Int :=
  let offset := B.encodeAs encodedSize f.base
  offset + snprintf E.SplaySize (E.SplayFormat (B.type f.base) f.splay_value)

/-- The `snprintf` calls of `encode` with the sizes passed to them: those of
the base body (`baseCalls`, given the result of the virtual
`getEncodedSize()`), then the splay call. -/
def snprintfCalls (B : FingerClass β ρb) (baseCalls : Int → β → List Field)
    (E : EncodedInput) (f : SplaySupport β σ) : List Field :=
  baseCalls (getEncodedSize B E f) f.base
    ++ [(E.SplaySize, E.SplayFormat (B.type f.base) f.splay_value)]

/-- The fields `encode` writes, each with its per-field size: those of the
base finger (`baseFields`), then the splay field with `SplaySize`. -/
def encodedFields (B : FingerClass β ρb) (baseFields : β → List Field) (E : EncodedInput)
    (f : SplaySupport β σ) : List Field :=
  baseFields f.base ++ [(E.SplaySize, E.SplayFormat (B.type f.base) f.splay_value)]

/-- Method `splayValue()`. -/
def splayValue (f : SplaySupport β σ) : Int := f.splay_value

/-- Method `resetCalibration()`. -/
def resetCalibration (B : FingerClass β ρb) (C : SensorClass σ ρ) (f : SplaySupport β σ) :
    SplaySupport β σ :=
  ⟨B.resetCalibration f.base, C.resetCalibration f.splay_sensor, f.splay_value⟩

/-- Method `enableCalibration()` (Finger.hpp, lines 266-270): a loop of three
iterations, each calling `splay_sensor->enableCalibration()`. -/
def enableCalibration (f : SplaySupport β σ) : SplaySupport β σ :=
  ⟨f.base, f.splay_sensor.enableCalibration.enableCalibration.enableCalibration,
    f.splay_value⟩

/-- Method `disableCalibration()` (Finger.hpp, lines 272-276): a loop of three
iterations, each calling `splay_sensor->disableCalibration()`. -/
def disableCalibration (f : SplaySupport β σ) : SplaySupport β σ :=
  ⟨f.base, f.splay_sensor.disableCalibration.disableCalibration.disableCalibration,
    f.splay_value⟩

/-- The sensors the finger owns: those of the base finger (`baseSensors`) and
the splay sensor. -/
def ownedSensors (baseSensors : β → List (Sensor σ)) (f : SplaySupport β σ) :
    List (Sensor σ) :=
  baseSensors f.base ++ [f.splay_sensor]

/-- The class `SplaySupport<BaseFinger>`; `curlValue` is inherited from the base. -/
def cls (B : FingerClass β ρb) (C : SensorClass σ ρ) (E : EncodedInput) :
    FingerClass (SplaySupport β σ) (ρb × ρ) where
  type := fun f => B.type f.base
  readInput := readInput B C
  getEncodedSize := getEncodedSize B E
  encode := fun f => encode B E (getEncodedSize B E f) f
  encodeAs := fun encodedSize f => encode B E encodedSize f
  curlValue := fun f => B.curlValue f.base
  splayValue := splayValue
  resetCalibration := resetCalibration B C
  enableCalibration := enableCalibration
  disableCalibration := disableCalibration

end SplaySupport

/-- Class `ConfigurableFinger<true, 1, _>`. -/
def ConfigurableFingerSplay1.cls {σ ρ : Type} (C : SensorClass σ ρ) (cfg : Config)
    (E : EncodedInput) : FingerClass (SplaySupport (ConfigurableFinger1 σ) σ) (ρ × ρ) :=
  SplaySupport.cls (ConfigurableFinger1.cls C cfg E) C E

/-- Class `ConfigurableFinger<true, 2, knuckle_offset>`. -/
def ConfigurableFingerSplay2.cls {σ ρ : Type} (C : SensorClass σ ρ) (cfg : Config)
    (E : EncodedInput) (knuckle_offset : Nat) :
    FingerClass (SplaySupport (ConfigurableFinger2 σ) σ) ((ρ × ρ) × ρ) :=
  SplaySupport.cls (ConfigurableFinger2.cls C cfg E knuckle_offset) C E

/-- Class `ConfigurableFinger<true, 3, knuckle_offset>`. -/
def ConfigurableFingerSplay3.cls {σ ρ : Type} (C : SensorClass σ ρ) (cfg : Config)
    (E : EncodedInput) (knuckle_offset : Nat) :
    FingerClass (SplaySupport (ConfigurableFinger3 σ) σ) ((ρ × ρ × ρ) × ρ) :=
  SplaySupport.cls (ConfigurableFinger3.cls C cfg E knuckle_offset) C E

/-! ## The centre-point filters and the stub filter (Filter.hpp, lines 68-133) -/

/-- The Arduino library function
`long map(long x, long in_min, long in_max, long out_min, long out_max)`:
`(x - in_min) * (out_max - out_min) / (in_max - in_min) + out_min` in integer
arithmetic, the division truncating toward zero; a zero divisor is undefined. -/
def map (x in_min in_max out_min out_max : Int) : Option Int :=
  if in_max - in_min = 0 then none
  else some (Int.tdiv ((x - in_min) * (out_max - out_min)) (in_max - in_min) + out_min)

/-- The two private members of
`CenterPointDeviationFilter<int, sensor_max, driver_max_deviation, output_min, output_max>`. -/
structure CenterPointDeviationFilter where
  range_min : Int
  range_max : Int
deriving DecidableEq

namespace CenterPointDeviationFilter

/-- Constructor: `range_min(sensor_max), range_max(0)`. -/
def init (sensor_max : Int) : CenterPointDeviationFilter := ⟨sensor_max, 0⟩

/-- Method `reset()`. -/
def reset (sensor_max : Int) (_s : CenterPointDeviationFilter) : CenterPointDeviationFilter :=
  ⟨sensor_max, 0⟩

/-- Method `update(input)`: each of the two `if` statements compares `input`
with a member and, when it fires, stores `accurateMap(input, output_min,
output_max, 0, sensor_max)` converted to `int`. -/
def update (sensor_max output_min output_max : Int) (s : CenterPointDeviationFilter)
    (input : Int) : Option CenterPointDeviationFilter :=
  let s1 : Option CenterPointDeviationFilter :=
    if input < s.range_min then
      (accurateMap input output_min output_max 0 sensor_max).map
        fun v => ⟨truncToInt v, s.range_max⟩
    else some s
  s1.bind fun s1 =>
    if input > s1.range_max then
      (accurateMap input output_min output_max 0 sensor_max).map
        fun v => ⟨s1.range_min, truncToInt v⟩
    else some s1

/-- Method `filter(input)` (Filter.hpp, lines 84-96); every local is an `int`. -/
def filter (sensor_max driver_max_deviation output_min output_max : Int)
    (s : CenterPointDeviationFilter) (input : Int) : Option Int :=
  let center : Int := truncToInt (((s.range_min + s.range_max : Int) : ℚ) / 2)
  (accurateMap input output_min output_max 0 sensor_max).bind fun v =>
    let output : Int := truncToInt v
    let output : Int := constrain (output - center) (-driver_max_deviation) driver_max_deviation
    map output (-driver_max_deviation) driver_max_deviation output_min output_max

/-- The methods of `CenterPointDeviationFilter`; the state `none` stands for
an object on which an undefined `update` was performed. -/
def ops (sensor_max driver_max_deviation output_min output_max : Int) :
    Filter (Option CenterPointDeviationFilter) where
  reset := fun s => s.map (reset sensor_max)
  update := fun s input => s.bind fun s => update sensor_max output_min output_max s input
  filter := fun s input =>
    s.bind fun s => filter sensor_max driver_max_deviation output_min output_max s input

/-- The value of `accurateMap(input, output_min, output_max, 0, sensor_max)`
converted to `int`, the expression `update` and `filter` both evaluate: the
raw reading in sensor units. -/
def sensorUnits (sensor_max output_min output_max : Int) (input : Int) : Option Int :=
  (accurateMap input output_min output_max 0 sensor_max).map truncToInt

/-- A sequence of `update` calls, first sample first; undefined as soon as
one call is. -/
def updates (sensor_max output_min output_max : Int) (s : CenterPointDeviationFilter)
    (xs : List Int) : Option CenterPointDeviationFilter :=
  xs.foldl (fun acc x => acc.bind fun t => update sensor_max output_min output_max t x) (some s)

end CenterPointDeviationFilter

namespace FixedCenterPointDeviationFilter

/-- Method `filter(input)` of `FixedCenterPointDeviationFilter<int, sensor_max,
driver_max_deviation, output_min, output_max>` (Filter.hpp, lines 109-121); the
class has no members. -/
def filter (sensor_max driver_max_deviation output_min output_max : Int)
    (_s : Unit) (input : Int) : Option Int :=
  let center : Int := truncToInt ((sensor_max : ℚ) / 2)
  (accurateMap input output_min output_max 0 sensor_max).bind fun v =>
    let output : Int := truncToInt v
    let output : Int := constrain (output - center) (-driver_max_deviation) driver_max_deviation
    map output (-driver_max_deviation) driver_max_deviation output_min output_max

/-- The methods of `FixedCenterPointDeviationFilter`: `reset` and `update`
have empty bodies. -/
def ops (sensor_max driver_max_deviation output_min output_max : Int) : Filter Unit where
  reset := fun s => s
  update := fun s _ => s
  filter := filter sensor_max driver_max_deviation output_min output_max

end FixedCenterPointDeviationFilter

namespace ExponentialToLinearFilter

/-- The methods of `ExponentialToLinearFilter<int, exponent, output_min,
output_max>` (Filter.hpp, lines 124-133): the object is a `MinMaxFilter`
object, `reset` and `update` are overridden with empty bodies, and `filter`
calls `MinMaxFilter::filter`. -/
def ops (I : IntRange) (output_min output_max : Int) : Filter MinMaxFilter where
  reset := fun s => s
  update := fun s _ => s
  filter := fun s input => MinMaxFilter.filter I output_min output_max s input

/-- The implicit constructor runs the constructor of the base `MinMaxFilter`. -/
def init (output_min output_max : Int) : MinMaxFilter :=
  MinMaxFilter.init output_min output_max

end ExponentialToLinearFilter

/-- One call made on a filter object: `reset()` or `update(x)`. -/
inductive FilterCall where
  | reset : FilterCall
  | update (x : Int) : FilterCall
deriving DecidableEq

/-- The state of a filter object after a sequence of calls, first call first. -/
def Filter.run {S : Type} (F : Filter S) (s : S) (calls : List FilterCall) : S :=
  calls.foldl (fun s c =>
    match c with
    | FilterCall.reset => F.reset s
    | FilterCall.update x => F.update s x) s

/-! ## Composite Hall-effect sensors (Sensor.hpp, lines 68-118) -/

/-- The class `HallEffectSensor`, that is `ResistiveSensor<DummyFilter<int>>`. -/
def HallEffectSensor.cls : SensorClass Unit Int := FilteredSensor.cls DummyFilter.ops

/-- The members `left` and `right` of `HallEffectCurlMultiSensor` and of
`HallEffectSplayMultiSensor`: the two `HallEffectSensor` objects pointed to.
(The constructors initialise each pointer from itself and ignore their pin
arguments; the methods below are modelled on two given sub-sensors.) -/
structure HallEffectPair where
  left : Sensor Unit
  right : Sensor Unit
deriving DecidableEq

namespace HallEffectCurlMultiSensor

/-- Method `getValue()` of `HallEffectCurlMultiSensor<min, max>`; `r` is what the
pins of the left and of the right sub-sensor deliver. -/
def getValue (min max : Int) (s : Sensor HallEffectPair) (r : Int × Int) :
    Option Int × Sensor HallEffectPair :=
  let resL := HallEffectSensor.cls.getValue s.members.left r.1
  let resR := HallEffectSensor.cls.getValue s.members.right r.2
  let middle : Int := Int.tdiv (min + max) 2
  (resL.1.bind fun left_value => resR.1.map fun right_value =>
      max + ((middle - left_value) + (middle - right_value)),
    ⟨s.calibrate, ⟨resL.2, resR.2⟩⟩)

/-- Method `resetCalibration()`. -/
def resetCalibration (s : Sensor HallEffectPair) : Sensor HallEffectPair :=
  ⟨s.calibrate, ⟨HallEffectSensor.cls.resetCalibration s.members.left,
    HallEffectSensor.cls.resetCalibration s.members.right⟩⟩

/-- The class `HallEffectCurlMultiSensor<min, max>`. -/
def cls (min max : Int) : SensorClass HallEffectPair (Int × Int) where
  getValue := getValue min max
  resetCalibration := resetCalibration

end HallEffectCurlMultiSensor

namespace HallEffectSplayMultiSensor

/-- Method `getValue()` of `HallEffectSplayMultiSensor<min, max>`; `r` is what
the pins of the left and of the right sub-sensor deliver. -/
def getValue (min max : Int) (s : Sensor HallEffectPair) (r : Int × Int) :
    Option Int × Sensor HallEffectPair :=
  let resL := HallEffectSensor.cls.getValue s.members.left r.1
  let resR := HallEffectSensor.cls.getValue s.members.right r.2
  let middle : Int := Int.tdiv (min + max) 2
  (resL.1.bind fun left_value => resR.1.map fun right_value =>
      middle - left_value + right_value,
    ⟨s.calibrate, ⟨resL.2, resR.2⟩⟩)

/-- Method `resetCalibration()`. -/
def resetCalibration (s : Sensor HallEffectPair) : Sensor HallEffectPair :=
  ⟨s.calibrate, ⟨HallEffectSensor.cls.resetCalibration s.members.left,
    HallEffectSensor.cls.resetCalibration s.members.right⟩⟩

/-- The class `HallEffectSplayMultiSensor<min, max>`. -/
def cls (min max : Int) : SensorClass HallEffectPair (Int × Int) where
  getValue := getValue min max
  resetCalibration := resetCalibration

end HallEffectSplayMultiSensor

/-! ## `BLESerialCommunication` (SerialBLECommunication.hpp) -/

/-- The bytes at `input[0]`, `input[1]`, ... of the memory a `char*` points to. -/
abbrev Memory := Nat → Char

/-- The members of `BLESerialCommunication` that `hasData`, `readData` and
`onWrite` use: `m_ReadBufer`, oldest message first. The mutex guards every
access and is not modelled; the calls are taken one at a time. -/
structure BLESerialCommunication where
  m_isOpen : Bool
  m_ReadBufer : List (List Char)

namespace BLESerialCommunication

/-- Method `hasData()`. -/
def hasData (c : BLESerialCommunication) : Bool := !c.m_ReadBufer.isEmpty

/-- Method `onWrite(ble_characteristic)`: `rx_value` is the value of the
characteristic, pushed at the back of the queue. -/
def onWrite (c : BLESerialCommunication) (rx_value : List Char) : BLESerialCommunication :=
  ⟨c.m_isOpen, c.m_ReadBufer ++ [rx_value]⟩

/-- Method `readData(input, buffer_size)` (lines 98-117): the returned flag,
the object and the memory at `input` after the call. -/
def readData (c : BLESerialCommunication) (input : Memory) (buffer_size : Nat) :
    Bool × BLESerialCommunication × Memory :=
  match c.m_ReadBufer with
  | [] => (false, c, input)
  | front :: rest =>
    let size := min front.length buffer_size
    let copied : Memory := fun i => if i < size then front.getD i (Char.ofNat 0) else input i
    let terminated : Memory := fun i => if i = size then Char.ofNat 0 else copied i
    (decide (size > 0), ⟨c.m_isOpen, rest⟩, terminated)

/-- The indices of `input` that `readData(input, buffer_size)` stores to, in
order: `memcpy(input, ..., size)` stores to `0 .. size - 1`, then
`input[size] = 0` stores to `size`. -/
def readDataWrites (c : BLESerialCommunication) (buffer_size : Nat) : List Nat :=
  match c.m_ReadBufer with
  | [] => []
  | front :: _ =>
    let size := min front.length buffer_size
    List.range size ++ [size]

end BLESerialCommunication

/-! ## Example configurations used in the scenarios -/

/-- Scenario B: `ANALOG_MAX = 4095` and the dependency fractions 0.2 and 0.8. -/
def scenarioB : Config := ⟨4095, 1 / 5, 4 / 5⟩

/-- A sensor without members whose calibration is off. -/
def plainSensor : Sensor Unit := ⟨false, ()⟩

/-- Decimal digits of an integer, with a minus sign when negative, as the
`%d` conversion prints them. -/
def decimalText (v : Int) : List Char :=
  if v < 0 then (Char.ofNat 45) :: Nat.toDigits 10 v.natAbs else Nat.toDigits 10 v.natAbs

/-- Sample encoding parameters: every format prints the type tag and the
decimal value, and a field has room for the tag, four digits and a terminator. -/
def sampleEncoding : EncodedInput where
  CurlSize := 6
  KnuckleSize := 6
  SplaySize := 6
  KnuckleFingerOffset := 0
  CurlFormat := fun t v => t :: decimalText v
  knuckleFormat := fun _ t v => t :: decimalText v
  SplayFormat := fun t v => t :: decimalText v

/-- A one-knuckle finger caching a value of six digits. -/
def overlongFinger : ConfigurableFinger1 Unit where
  type := Char.ofNat 65
  invert_curl := false
  invert_splay := false
  calibrate := false
  sensor := plainSensor
  value := 100000

/-- A two-knuckle finger with splay caching values of the raw domain. -/
def fittingFinger : SplaySupport (ConfigurableFinger2 Unit) Unit where
  base := ⟨⟨Char.ofNat 65, false, false, false⟩, (plainSensor, plainSensor), (0, 2047, 4095)⟩
  splay_sensor := plainSensor
  splay_value := 2047

/-- A two-knuckle finger as constructed (`values{0, 0, 0}`), its sensors of
class `ResistiveSensor<DummyFilter<int>>`. -/
def freshFinger2 : ConfigurableFinger2 Unit :=
  ⟨⟨Char.ofNat 66, false, false, false⟩, (plainSensor, plainSensor), (0, 0, 0)⟩

/-- A one-knuckle finger with splay, calibration off on both of its sensors. -/
def splayFingerOff : SplaySupport (ConfigurableFinger1 Unit) Unit :=
  ⟨⟨⟨Char.ofNat 65, false, false, false⟩, ⟨false, ()⟩, 0⟩, ⟨false, ()⟩, 0⟩

/-- A one-knuckle finger with splay, calibration on on both of its sensors. -/
def splayFingerOn : SplaySupport (ConfigurableFinger1 Unit) Unit :=
  ⟨⟨⟨Char.ofNat 65, false, false, false⟩, ⟨true, ()⟩, 0⟩, ⟨true, ()⟩, 0⟩

/-- A one-knuckle finger with splay whose two `MinMaxFilter<int, 0, 4095>`
sensors have learned ranges, caching the values 1200 and 2100. -/
def calibratedSplayFinger : SplaySupport (ConfigurableFinger1 MinMaxFilter) MinMaxFilter :=
  ⟨⟨⟨Char.ofNat 65, false, false, false⟩, ⟨true, ⟨1000, 3000⟩⟩, 1200⟩, ⟨false, ⟨500, 700⟩⟩, 2100⟩

/-- A composite Hall-effect sensor object with two plain sub-sensors. -/
def hallPair : Sensor HallEffectPair := ⟨false, ⟨plainSensor, plainSensor⟩⟩

/-- A transport with two pending messages, `abc` (the oldest) and `d`. -/
def pendingTwo : BLESerialCommunication := ⟨true, [['a', 'b', 'c'], ['d']]⟩

/-- Memory holding the byte `z` everywhere. -/
def blankMemory : Memory := fun _ => 'z'

/-- A one-knuckle finger with splay caching the curl value 1234567 and the
splay value 2047. -/
def wideCurlSplayFinger : SplaySupport (ConfigurableFinger1 Unit) Unit :=
  ⟨⟨⟨Char.ofNat 65, false, false, false⟩, plainSensor, 1234567⟩, plainSensor, 2047⟩

/-! # Theorems -/

/-! ## Facts about truncation -/

theorem truncToInt_eq_floor_or_ceil (q : ℚ) :
    truncToInt q = if 0 ≤ q then ⌊q⌋ else ⌈q⌉ := by
  unfold truncToInt
  split_ifs with h
  · have hn : 0 ≤ q.num := Rat.num_nonneg.mpr h
    rw [Int.tdiv_eq_ediv hn (Int.ofNat_nonneg _), Rat.floor_def]
  · have hq : 0 ≤ -q := by linarith [not_le.mp h]
    have hn : 0 ≤ (-q).num := Rat.num_nonneg.mpr hq
    have h1 : ⌈q⌉ = -⌊-q⌋ := by rw [Int.floor_neg, neg_neg]
    rw [h1, Rat.floor_def, Rat.neg_num, Rat.neg_den] 
    rw [Rat.neg_num] at hn
    rw [← Int.tdiv_eq_ediv hn (Int.ofNat_nonneg _), Int.neg_tdiv, neg_neg]

theorem truncToInt_intCast_div (a b : Int) (hb : 0 < b) :
    truncToInt ((a : ℚ) / (b : ℚ)) = Int.tdiv a b := by
  have hbq : (0 : ℚ) < (b : ℚ) := by exact_mod_cast hb
  have hfloor : ∀ n : Int, ⌊(n : ℚ) / (b : ℚ)⌋ = n / b := by
    intro n
    have := Rat.floor_intCast_div_natCast n b.toNat
    rwa [show ((b.toNat : ℕ) : ℚ) = (b : ℚ) by
      rw [← Int.cast_natCast, Int.toNat_of_nonneg hb.le], Int.toNat_of_nonneg hb.le] at this
  rw [truncToInt_eq_floor_or_ceil]
  split_ifs with h
  · have ha : 0 ≤ a := by
      by_contra hneg
      have : (a : ℚ) < 0 := by exact_mod_cast not_le.mp hneg
      have : (a : ℚ) / b < 0 := div_neg_of_neg_of_pos this hbq
      linarith
    rw [hfloor, Int.tdiv_eq_ediv ha hb.le]
  · have ha : a < 0 := by
      by_contra hnn
      have : (0 : ℚ) ≤ (a : ℚ) := by exact_mod_cast not_lt.mp hnn
      exact h (div_nonneg this hbq.le)
    have h1 : ⌈(a : ℚ) / b⌉ = -⌊((-a : Int) : ℚ) / b⌋ := by
      rw [Int.cast_neg, neg_div, Int.floor_neg, neg_neg]
    rw [h1, hfloor, ← Int.tdiv_eq_ediv (by omega) hb.le, Int.neg_tdiv, neg_neg]

theorem truncToInt_mono {p q : ℚ} (h : p ≤ q) : truncToInt p ≤ truncToInt q := by
  rw [truncToInt_eq_floor_or_ceil, truncToInt_eq_floor_or_ceil]
  split_ifs with hp hq hq
  · exact Int.floor_mono h
  · exact absurd (le_trans hp h) hq
  · have h1 : ⌈p⌉ ≤ 0 := Int.ceil_le.mpr (by push_cast; linarith [not_le.mp hp])
    have h2 : 0 ≤ ⌊q⌋ := Int.floor_nonneg.mpr hq
    omega
  · exact Int.ceil_mono h

theorem constrain_bounds (amt low high : Int) (h : low ≤ high) :
    low ≤ constrain amt low high ∧ constrain amt low high ≤ high := by
  unfold constrain
  split_ifs <;> omega

/-! ## The range-tracking filter -/

theorem floatToInt_of_fit (I : IntRange) (q : ℚ) (h1 : I.INT_MIN ≤ truncToInt q)
    (h2 : truncToInt q ≤ I.INT_MAX) : floatToInt I q = some (truncToInt q) := by
  simp [floatToInt, h1, h2]

theorem floatToInt_of_small (I : IntRange) (q : ℚ) (t : Int) (ht : truncToInt q = t)
    (h1 : -32767 ≤ t) (h2 : t ≤ 32767) : floatToInt I q = some t := by
  have hw := I.wide
  rw [← ht]
  apply floatToInt_of_fit
  · unfold IntRange.INT_MIN
    omega
  · omega

theorem MinMaxFilter.filter_eq_of_lt (I : IntRange) (output_min output_max : Int)
    (s : MinMaxFilter) (hs : s.value_min < s.value_max) (r : Int) :
    MinMaxFilter.filter I output_min output_max s r
      = (floatToInt I (((r : ℚ) - s.value_min) * ((output_max : ℚ) - output_min)
          / ((s.value_max : ℚ) - s.value_min) + output_min)).map
          fun output => constrain output output_min output_max := by
  have hne : ((s.value_max : ℚ) - (s.value_min : ℚ)) ≠ 0 := by
    have : (s.value_min : ℚ) < (s.value_max : ℚ) := by exact_mod_cast hs
    linarith
  simp [MinMaxFilter.filter, accurateMap, not_lt.mpr hs.le, hne]

theorem MinMaxFilter.filter_eval (I : IntRange) (output_min output_max : Int)
    (s : MinMaxFilter) (hs : s.value_min < s.value_max) (r t : Int)
    (ht : truncToInt (((r : ℚ) - s.value_min) * ((output_max : ℚ) - output_min)
      / ((s.value_max : ℚ) - s.value_min) + output_min) = t)
    (h1 : -32767 ≤ t) (h2 : t ≤ 32767) :
    MinMaxFilter.filter I output_min output_max s r
      = some (constrain t output_min output_max) := by
  rw [MinMaxFilter.filter_eq_of_lt I output_min output_max s hs,
    floatToInt_of_small I _ t ht h1 h2]
  rfl

theorem MinMaxFilter.filter_of_lt (I : IntRange) (output_min output_max : Int)
    (h : output_min ≤ output_max) (s : MinMaxFilter) (hs : s.value_min < s.value_max) (r : Int)
    (hfit : I.INT_MIN ≤ truncToInt (((r : ℚ) - s.value_min) * ((output_max : ℚ) - output_min)
        / ((s.value_max : ℚ) - s.value_min) + output_min) ∧
      truncToInt (((r : ℚ) - s.value_min) * ((output_max : ℚ) - output_min)
        / ((s.value_max : ℚ) - s.value_min) + output_min) ≤ I.INT_MAX) :
    ∃ y, MinMaxFilter.filter I output_min output_max s r = some y ∧
      output_min ≤ y ∧ y ≤ output_max := by
  rw [MinMaxFilter.filter_eq_of_lt I output_min output_max s hs,
    floatToInt_of_fit I _ hfit.1 hfit.2]
  exact ⟨_, rfl, constrain_bounds _ _ _ h⟩

theorem MinMaxFilter.filter_single_sample (I : IntRange) (output_min output_max x r : Int)
    (h1 : output_min < x) (h2 : x < output_max) :
    MinMaxFilter.update (MinMaxFilter.init output_min output_max) x = ⟨x, x⟩ ∧
    MinMaxFilter.filter I output_min output_max
      (MinMaxFilter.update (MinMaxFilter.init output_min output_max) x) r = none := by
  have e : MinMaxFilter.update (MinMaxFilter.init output_min output_max) x = ⟨x, x⟩ := by
    simp [MinMaxFilter.update, MinMaxFilter.init, h1, h2]
  rw [e]
  exact ⟨rfl, by simp [MinMaxFilter.filter, accurateMap]⟩

/-- C1 (code at the failing input): on `MinMaxFilter<int, 0, 4095>`, after the
single call `update(1000)` on a fresh filter the learned range is the one
point `[1000, 1000]`, and `filter(500)` divides by `value_max - value_min = 0`:
the float is not finite and its conversion to `int` is undefined, so no value
in `[0, 4095]` is returned, whatever the width of `int`. -/
theorem C1_filter_after_single_update_undefined (I : IntRange) :
    MinMaxFilter.updates (MinMaxFilter.init 0 4095) [1000] = ⟨1000, 1000⟩ ∧
    MinMaxFilter.filter I 0 4095 (MinMaxFilter.updates (MinMaxFilter.init 0 4095) [1000]) 500
      = none := by
  constructor
  · simp [MinMaxFilter.updates, MinMaxFilter.update, MinMaxFilter.init]
  · simp [MinMaxFilter.filter, MinMaxFilter.updates, MinMaxFilter.update, MinMaxFilter.init,
      accurateMap]

/-- C2: with `output_min < output_max`, a freshly constructed `MinMaxFilter`
and a `MinMaxFilter` right after `reset()` (whatever state `s` the preceding
updates left) return `(output_min + output_max) / 2`, in integer division
truncating toward zero, for every raw input `r`. -/
theorem C2_filter_unset_is_midpoint (I : IntRange) (output_min output_max : Int)
    (h : output_min < output_max) (s : MinMaxFilter) (r : Int) :
    MinMaxFilter.filter I output_min output_max (MinMaxFilter.init output_min output_max) r
      = some (Int.tdiv (output_min + output_max) 2) ∧
    MinMaxFilter.filter I output_min output_max (MinMaxFilter.reset output_min output_max s) r
      = some (Int.tdiv (output_min + output_max) 2) := by
  have key := truncToInt_intCast_div (output_min + output_max) 2 (by norm_num)
  push_cast at key
  constructor <;>
    simp [MinMaxFilter.filter, MinMaxFilter.init, MinMaxFilter.reset, h, key]

/-- Witness of C2 on `MinMaxFilter<int, 0, 4095>`, the reset following two updates. -/
theorem C2_filter_unset_is_midpoint_witness :
    (0 : Int) < 4095 ∧
    (MinMaxFilter.filter int32 0 4095 (MinMaxFilter.init 0 4095) 7
      = some (Int.tdiv (0 + 4095) 2) ∧
    MinMaxFilter.filter int32 0 4095 (MinMaxFilter.reset 0 4095
        (MinMaxFilter.updates (MinMaxFilter.init 0 4095) [1000, 3000])) 7
      = some (Int.tdiv (0 + 4095) 2)) :=
  ⟨by decide, C2_filter_unset_is_midpoint int32 0 4095 (by decide) _ 7⟩

/-- C3 (scenario A): on `MinMaxFilter<int, 0, 4095>`, after `update(1000)` and
`update(3000)` on a fresh filter, in either order, `filter(500) = 0`,
`filter(2000) = 2047` and `filter(4000) = 4095`, whatever the width of `int`. -/
theorem C3_scenario_A (I : IntRange) :
    (MinMaxFilter.filter I 0 4095 (MinMaxFilter.updates (MinMaxFilter.init 0 4095) [1000, 3000])
        500 = some 0 ∧
    MinMaxFilter.filter I 0 4095 (MinMaxFilter.updates (MinMaxFilter.init 0 4095) [1000, 3000])
        2000 = some 2047 ∧
    MinMaxFilter.filter I 0 4095 (MinMaxFilter.updates (MinMaxFilter.init 0 4095) [1000, 3000])
        4000 = some 4095) ∧
    (MinMaxFilter.filter I 0 4095 (MinMaxFilter.updates (MinMaxFilter.init 0 4095) [3000, 1000])
        500 = some 0 ∧
    MinMaxFilter.filter I 0 4095 (MinMaxFilter.updates (MinMaxFilter.init 0 4095) [3000, 1000])
        2000 = some 2047 ∧
    MinMaxFilter.filter I 0 4095 (MinMaxFilter.updates (MinMaxFilter.init 0 4095) [3000, 1000])
        4000 = some 4095) := by
  have e1 : MinMaxFilter.updates (MinMaxFilter.init 0 4095) [1000, 3000] = ⟨1000, 3000⟩ := by
    simp [MinMaxFilter.updates, MinMaxFilter.update, MinMaxFilter.init]
  have e2 : MinMaxFilter.updates (MinMaxFilter.init 0 4095) [3000, 1000] = ⟨1000, 3000⟩ := by
    simp [MinMaxFilter.updates, MinMaxFilter.update, MinMaxFilter.init]
  have hs : (⟨1000, 3000⟩ : MinMaxFilter).value_min < (⟨1000, 3000⟩ : MinMaxFilter).value_max := by
    decide
  have f1 : MinMaxFilter.filter I 0 4095 ⟨1000, 3000⟩ 500 = some 0 :=
    (MinMaxFilter.filter_eval I 0 4095 ⟨1000, 3000⟩ hs 500 (-1023)
      (by norm_num [truncToInt]; decide) (by decide) (by decide)).trans (by decide)
  have f2 : MinMaxFilter.filter I 0 4095 ⟨1000, 3000⟩ 2000 = some 2047 :=
    (MinMaxFilter.filter_eval I 0 4095 ⟨1000, 3000⟩ hs 2000 2047
      (by norm_num [truncToInt]; decide) (by decide) (by decide)).trans (by decide)
  have f3 : MinMaxFilter.filter I 0 4095 ⟨1000, 3000⟩ 4000 = some 4095 :=
    (MinMaxFilter.filter_eval I 0 4095 ⟨1000, 3000⟩ hs 4000 6142
      (by norm_num [truncToInt]; decide) (by decide) (by decide)).trans (by decide)
  rw [e1, e2]
  exact ⟨⟨f1, f2, f3⟩, ⟨f1, f2, f3⟩⟩

/-! ## Sensors -/

/-- C4: `FilteredSensor<F>::getValue()` with calibrator state `s.members` and
physical reading `raw` returns `F.filter(raw)` evaluated on the state `S1`
and leaves the calibrator in `S1` (the calibrate flag untouched), where `S1`
is `update(S, raw)` when the calibrate flag is set and the unchanged state `S`
when it is not. -/
theorem C4_getValue_updates_only_when_calibrating {S : Type} (F : Filter S) (s : Sensor S)
    (raw : Int) :
    FilteredSensor.getValue F s raw =
      (F.filter (if s.calibrate = true then F.update s.members raw else s.members) raw,
        ⟨s.calibrate, if s.calibrate = true then F.update s.members raw else s.members⟩) := by
  obtain ⟨c, m⟩ := s
  cases c <;> simp [FilteredSensor.getValue]

/-! ## Encoded size -/

theorem SplaySupport.splay_encode_le_of_fit {β σ ρb : Type} (B : FingerClass β ρb)
    (baseFields : β → List Field) (E : EncodedInput) (encodedSize : Int) (f : SplaySupport β σ)
    (hbase : FieldsFit (baseFields f.base) →
      B.encodeAs encodedSize f.base ≤ B.getEncodedSize f.base)
    (hfit : FieldsFit (SplaySupport.encodedFields B baseFields E f)) :
    SplaySupport.encode B E encodedSize f ≤ SplaySupport.getEncodedSize B E f := by
  have hb : B.encodeAs encodedSize f.base ≤ B.getEncodedSize f.base :=
    hbase fun p hp => hfit p (by simp [SplaySupport.encodedFields, hp])
  have hs := hfit (E.SplaySize, E.SplayFormat (B.type f.base) f.splay_value)
    (by simp [SplaySupport.encodedFields])
  simp only [SplaySupport.encode, SplaySupport.getEncodedSize, snprintf] at *
  omega

theorem ConfigurableFinger1.encode1_le_of_fit {σ : Type} (E : EncodedInput) (encodedSize : Int)
    (f : ConfigurableFinger1 σ) (hfit : FieldsFit (ConfigurableFinger1.encodedFields E f)) :
    ConfigurableFinger1.encode E encodedSize f ≤ ConfigurableFinger1.getEncodedSize E f := by
  have h := hfit (E.CurlSize, E.CurlFormat f.type f.value)
    (by simp [ConfigurableFinger1.encodedFields])
  simp only [ConfigurableFinger1.encode, ConfigurableFinger1.getEncodedSize, snprintf] at *
  omega

theorem ConfigurableFinger2.encode2_le_of_fit {σ : Type} (E : EncodedInput) (knuckle_offset : Nat)
    (f : ConfigurableFinger2 σ)
    (hfit : FieldsFit (ConfigurableFinger2.encodedFields E knuckle_offset f)) :
    ConfigurableFinger2.encode E knuckle_offset f ≤ ConfigurableFinger2.getEncodedSize E f := by
  have h0 := hfit (E.KnuckleSize, E.knuckleFormat (0 + knuckle_offset) f.type f.values.1)
    (by simp [ConfigurableFinger2.encodedFields])
  have h1 := hfit (E.KnuckleSize, E.knuckleFormat (1 + knuckle_offset) f.type f.values.2.1)
    (by simp [ConfigurableFinger2.encodedFields])
  have h2 := hfit (E.KnuckleSize, E.knuckleFormat (2 + knuckle_offset) f.type f.values.2.2)
    (by simp [ConfigurableFinger2.encodedFields])
  simp only [ConfigurableFinger2.encode, ConfigurableFinger2.getEncodedSize, snprintf] at *
  omega

theorem ConfigurableFinger3.encode3_le_of_fit {σ : Type} (E : EncodedInput) (knuckle_offset : Nat)
    (f : ConfigurableFinger3 σ)
    (hfit : FieldsFit (ConfigurableFinger3.encodedFields E knuckle_offset f)) :
    ConfigurableFinger3.encode E knuckle_offset f ≤ ConfigurableFinger3.getEncodedSize E f := by
  have h0 := hfit (E.KnuckleSize, E.knuckleFormat (0 + knuckle_offset) f.type f.values.1)
    (by simp [ConfigurableFinger3.encodedFields])
  have h1 := hfit (E.KnuckleSize, E.knuckleFormat (1 + knuckle_offset) f.type f.values.2.1)
    (by simp [ConfigurableFinger3.encodedFields])
  have h2 := hfit (E.KnuckleSize, E.knuckleFormat (2 + knuckle_offset) f.type f.values.2.2)
    (by simp [ConfigurableFinger3.encodedFields])
  simp only [ConfigurableFinger3.encode, ConfigurableFinger3.getEncodedSize, snprintf] at *
  omega

theorem decimalText_1234567 : (decimalText 1234567).length = 7 := by decide

theorem decimalText_2047 : (decimalText 2047).length = 4 := by decide

theorem snprintf_size_condition_is_not_enough :
    FieldsFit (SplaySupport.snprintfCalls
      (ConfigurableFinger1.cls (FilteredSensor.cls DummyFilter.ops) scenarioB sampleEncoding)
      (ConfigurableFinger1.snprintfCalls sampleEncoding) sampleEncoding wideCurlSplayFinger) ∧
    (ConfigurableFingerSplay1.cls (FilteredSensor.cls DummyFilter.ops) scenarioB
      sampleEncoding).getEncodedSize wideCurlSplayFinger = 11 ∧
    (ConfigurableFingerSplay1.cls (FilteredSensor.cls DummyFilter.ops) scenarioB
      sampleEncoding).encode wideCurlSplayFinger = 13 := by
  refine ⟨?_, rfl, ?_⟩
  · intro p hp
    simp only [SplaySupport.snprintfCalls, ConfigurableFinger1.snprintfCalls,
      SplaySupport.getEncodedSize, ConfigurableFinger1.cls, ConfigurableFinger1.getEncodedSize,
      sampleEncoding, wideCurlSplayFinger, List.mem_append, List.mem_singleton,
      List.cons_append, List.nil_append, List.mem_cons, List.not_mem_nil, or_false] at hp
    rcases hp with rfl | rfl
    · simp only [List.length_cons, decimalText_1234567]
      decide
    · simp only [List.length_cons, decimalText_2047]
      decide
  · simp only [ConfigurableFingerSplay1.cls, SplaySupport.cls, SplaySupport.encode,
      ConfigurableFinger1.cls, ConfigurableFinger1.encode, snprintf, sampleEncoding,
      wideCurlSplayFinger, List.length_cons, decimalText_1234567, decimalText_2047]
    decide

/-- C5 (as stated, refuted): with field sizes of 6 and formats that print the
type tag and the decimal value, the one-knuckle finger caching the value
100000 has `getEncodedSize() = 6` while `encode()` reports 7, because
`snprintf` returns the length of the untruncated text. -/
theorem C5_encode_can_exceed_encoded_size :
    (ConfigurableFinger1.cls (FilteredSensor.cls DummyFilter.ops) scenarioB
      sampleEncoding).getEncodedSize overlongFinger = 6 ∧
    (ConfigurableFinger1.cls (FilteredSensor.cls DummyFilter.ops) scenarioB
      sampleEncoding).encode overlongFinger = 7 ∧
    ¬ ((ConfigurableFinger1.cls (FilteredSensor.cls DummyFilter.ops) scenarioB
        sampleEncoding).encode overlongFinger
      ≤ (ConfigurableFinger1.cls (FilteredSensor.cls DummyFilter.ops) scenarioB
        sampleEncoding).getEncodedSize overlongFinger) := by
  have h1 : (ConfigurableFinger1.cls (FilteredSensor.cls DummyFilter.ops) scenarioB
      sampleEncoding).getEncodedSize overlongFinger = 6 := rfl
  have h2 : (ConfigurableFinger1.cls (FilteredSensor.cls DummyFilter.ops) scenarioB
      sampleEncoding).encode overlongFinger = 7 := by
    simp [ConfigurableFinger1.cls, ConfigurableFinger1.encode, snprintf, sampleEncoding,
      overlongFinger, decimalText]
    decide
  refine ⟨h1, h2, ?_⟩
  rw [h1, h2]
  decide

/-- C5 (amended): for each of the six finger topologies and every cached
finger state in which each field's formatted text is shorter than the
per-field size of that field (`CurlSize` for the curl field, `KnuckleSize` for
a knuckle field, `SplaySize` for the splay field), the length reported by
`encode()` is at most `getEncodedSize()`. -/
theorem C5_encode_le_encoded_size_when_fields_fit {σ ρ : Type} (C : SensorClass σ ρ)
    (cfg : Config) (E : EncodedInput) (knuckle_offset : Nat) :
    (∀ f : ConfigurableFinger1 σ, FieldsFit (ConfigurableFinger1.encodedFields E f) →
      (ConfigurableFinger1.cls C cfg E).encode f
        ≤ (ConfigurableFinger1.cls C cfg E).getEncodedSize f) ∧
    (∀ f : ConfigurableFinger2 σ,
      FieldsFit (ConfigurableFinger2.encodedFields E knuckle_offset f) →
      (ConfigurableFinger2.cls C cfg E knuckle_offset).encode f
        ≤ (ConfigurableFinger2.cls C cfg E knuckle_offset).getEncodedSize f) ∧
    (∀ f : ConfigurableFinger3 σ,
      FieldsFit (ConfigurableFinger3.encodedFields E knuckle_offset f) →
      (ConfigurableFinger3.cls C cfg E knuckle_offset).encode f
        ≤ (ConfigurableFinger3.cls C cfg E knuckle_offset).getEncodedSize f) ∧
    (∀ f : SplaySupport (ConfigurableFinger1 σ) σ,
      FieldsFit (SplaySupport.encodedFields (ConfigurableFinger1.cls C cfg E)
        (ConfigurableFinger1.encodedFields E) E f) →
      (ConfigurableFingerSplay1.cls C cfg E).encode f
        ≤ (ConfigurableFingerSplay1.cls C cfg E).getEncodedSize f) ∧
    (∀ f : SplaySupport (ConfigurableFinger2 σ) σ,
      FieldsFit (SplaySupport.encodedFields (ConfigurableFinger2.cls C cfg E knuckle_offset)
        (ConfigurableFinger2.encodedFields E knuckle_offset) E f) →
      (ConfigurableFingerSplay2.cls C cfg E knuckle_offset).encode f
        ≤ (ConfigurableFingerSplay2.cls C cfg E knuckle_offset).getEncodedSize f) ∧
    (∀ f : SplaySupport (ConfigurableFinger3 σ) σ,
      FieldsFit (SplaySupport.encodedFields (ConfigurableFinger3.cls C cfg E knuckle_offset)
        (ConfigurableFinger3.encodedFields E knuckle_offset) E f) →
      (ConfigurableFingerSplay3.cls C cfg E knuckle_offset).encode f
        ≤ (ConfigurableFingerSplay3.cls C cfg E knuckle_offset).getEncodedSize f) := by
  refine ⟨?_, ?_, ?_, ?_, ?_, ?_⟩
  · exact fun f hf =>
      ConfigurableFinger1.encode1_le_of_fit E (ConfigurableFinger1.getEncodedSize E f) f hf
  · exact fun f hf => ConfigurableFinger2.encode2_le_of_fit E knuckle_offset f hf
  · exact fun f hf => ConfigurableFinger3.encode3_le_of_fit E knuckle_offset f hf
  · exact fun f hf => SplaySupport.splay_encode_le_of_fit (ConfigurableFinger1.cls C cfg E)
      (ConfigurableFinger1.encodedFields E) E
      (SplaySupport.getEncodedSize (ConfigurableFinger1.cls C cfg E) E f) f
      (ConfigurableFinger1.encode1_le_of_fit E
        (SplaySupport.getEncodedSize (ConfigurableFinger1.cls C cfg E) E f) f.base) hf
  · exact fun f hf => SplaySupport.splay_encode_le_of_fit
      (ConfigurableFinger2.cls C cfg E knuckle_offset)
      (ConfigurableFinger2.encodedFields E knuckle_offset) E
      (SplaySupport.getEncodedSize (ConfigurableFinger2.cls C cfg E knuckle_offset) E f) f
      (ConfigurableFinger2.encode2_le_of_fit E knuckle_offset f.base) hf
  · exact fun f hf => SplaySupport.splay_encode_le_of_fit
      (ConfigurableFinger3.cls C cfg E knuckle_offset)
      (ConfigurableFinger3.encodedFields E knuckle_offset) E
      (SplaySupport.getEncodedSize (ConfigurableFinger3.cls C cfg E knuckle_offset) E f) f
      (ConfigurableFinger3.encode3_le_of_fit E knuckle_offset f.base) hf

/-- Witness of C5 (amended): a two-knuckle finger with splay whose four fields
each print a tag and at most four digits into fields of size 6. -/
theorem C5_encode_le_encoded_size_when_fields_fit_witness :
    FieldsFit (SplaySupport.encodedFields
      (ConfigurableFinger2.cls (FilteredSensor.cls DummyFilter.ops) scenarioB sampleEncoding 0)
      (ConfigurableFinger2.encodedFields sampleEncoding 0) sampleEncoding fittingFinger) ∧
    (ConfigurableFingerSplay2.cls (FilteredSensor.cls DummyFilter.ops) scenarioB
        sampleEncoding 0).encode fittingFinger
      ≤ (ConfigurableFingerSplay2.cls (FilteredSensor.cls DummyFilter.ops) scenarioB
        sampleEncoding 0).getEncodedSize fittingFinger :=
  have hfit : FieldsFit (SplaySupport.encodedFields
      (ConfigurableFinger2.cls (FilteredSensor.cls DummyFilter.ops) scenarioB sampleEncoding 0)
      (ConfigurableFinger2.encodedFields sampleEncoding 0) sampleEncoding fittingFinger) := by
    simp [FieldsFit, SplaySupport.encodedFields, ConfigurableFinger2.encodedFields,
      ConfigurableFinger2.cls, sampleEncoding, fittingFinger, decimalText]
    decide
  ⟨hfit, (C5_encode_le_encoded_size_when_fields_fit (FilteredSensor.cls DummyFilter.ops)
    scenarioB sampleEncoding 0).2.2.2.2.1 fittingFinger hfit⟩

/-- C6: for each of the six finger topologies `getEncodedSize()` is the sum of
the sizes of the fields `encode()` writes minus the number of fields less one:
`CurlSize` for one knuckle, `3 * KnuckleSize - 2` for two and for three
knuckles, and the base finger's size plus `SplaySize - 1` with splay. -/
theorem C6_encoded_size_is_sum_of_field_sizes {σ ρ : Type} (C : SensorClass σ ρ)
    (cfg : Config) (E : EncodedInput) (knuckle_offset : Nat) :
    (∀ f : ConfigurableFinger1 σ,
      (ConfigurableFinger1.cls C cfg E).getEncodedSize f
        = ((ConfigurableFinger1.encodedFields E f).map Prod.fst).sum
          - (((ConfigurableFinger1.encodedFields E f).length : Int) - 1) ∧
      (ConfigurableFinger1.cls C cfg E).getEncodedSize f = E.CurlSize) ∧
    (∀ f : ConfigurableFinger2 σ,
      (ConfigurableFinger2.cls C cfg E knuckle_offset).getEncodedSize f
        = ((ConfigurableFinger2.encodedFields E knuckle_offset f).map Prod.fst).sum
          - (((ConfigurableFinger2.encodedFields E knuckle_offset f).length : Int) - 1) ∧
      (ConfigurableFinger2.cls C cfg E knuckle_offset).getEncodedSize f
        = 3 * E.KnuckleSize - 2) ∧
    (∀ f : ConfigurableFinger3 σ,
      (ConfigurableFinger3.cls C cfg E knuckle_offset).getEncodedSize f
        = ((ConfigurableFinger3.encodedFields E knuckle_offset f).map Prod.fst).sum
          - (((ConfigurableFinger3.encodedFields E knuckle_offset f).length : Int) - 1) ∧
      (ConfigurableFinger3.cls C cfg E knuckle_offset).getEncodedSize f
        = 3 * E.KnuckleSize - 2) ∧
    (∀ f : SplaySupport (ConfigurableFinger1 σ) σ,
      (ConfigurableFingerSplay1.cls C cfg E).getEncodedSize f
        = ((SplaySupport.encodedFields (ConfigurableFinger1.cls C cfg E)
            (ConfigurableFinger1.encodedFields E) E f).map Prod.fst).sum
          - (((SplaySupport.encodedFields (ConfigurableFinger1.cls C cfg E)
            (ConfigurableFinger1.encodedFields E) E f).length : Int) - 1) ∧
      (ConfigurableFingerSplay1.cls C cfg E).getEncodedSize f
        = (ConfigurableFinger1.cls C cfg E).getEncodedSize f.base + E.SplaySize - 1) ∧
    (∀ f : SplaySupport (ConfigurableFinger2 σ) σ,
      (ConfigurableFingerSplay2.cls C cfg E knuckle_offset).getEncodedSize f
        = ((SplaySupport.encodedFields (ConfigurableFinger2.cls C cfg E knuckle_offset)
            (ConfigurableFinger2.encodedFields E knuckle_offset) E f).map Prod.fst).sum
          - (((SplaySupport.encodedFields (ConfigurableFinger2.cls C cfg E knuckle_offset)
            (ConfigurableFinger2.encodedFields E knuckle_offset) E f).length : Int) - 1) ∧
      (ConfigurableFingerSplay2.cls C cfg E knuckle_offset).getEncodedSize f
        = (ConfigurableFinger2.cls C cfg E knuckle_offset).getEncodedSize f.base
          + E.SplaySize - 1) ∧
    (∀ f : SplaySupport (ConfigurableFinger3 σ) σ,
      (ConfigurableFingerSplay3.cls C cfg E knuckle_offset).getEncodedSize f
        = ((SplaySupport.encodedFields (ConfigurableFinger3.cls C cfg E knuckle_offset)
            (ConfigurableFinger3.encodedFields E knuckle_offset) E f).map Prod.fst).sum
          - (((SplaySupport.encodedFields (ConfigurableFinger3.cls C cfg E knuckle_offset)
            (ConfigurableFinger3.encodedFields E knuckle_offset) E f).length : Int) - 1) ∧
      (ConfigurableFingerSplay3.cls C cfg E knuckle_offset).getEncodedSize f
        = (ConfigurableFinger3.cls C cfg E knuckle_offset).getEncodedSize f.base
          + E.SplaySize - 1) := by
  refine ⟨?_, ?_, ?_, ?_, ?_, ?_⟩ <;> intro f <;> constructor <;>
    simp [ConfigurableFingerSplay1.cls, ConfigurableFingerSplay2.cls,
      ConfigurableFingerSplay3.cls, SplaySupport.cls, SplaySupport.getEncodedSize,
      SplaySupport.encodedFields, ConfigurableFinger1.cls, ConfigurableFinger2.cls,
      ConfigurableFinger3.cls, ConfigurableFinger1.getEncodedSize,
      ConfigurableFinger2.getEncodedSize, ConfigurableFinger3.getEncodedSize,
      ConfigurableFinger1.encodedFields, ConfigurableFinger2.encodedFields,
      ConfigurableFinger3.encodedFields] <;> ring

/-! ## The derived third knuckle of the two-knuckle finger -/

theorem ConfigurableFinger2.thirdKnuckle_of_lt (cfg : Config)
    (h : ConfigurableFinger2.dependencyMin cfg < ConfigurableFinger2.dependencyMax cfg)
    (v : Int) :
    ConfigurableFinger2.thirdKnuckle cfg v = some (Int.tdiv
      ((constrain v (ConfigurableFinger2.dependencyMin cfg)
        (ConfigurableFinger2.dependencyMax cfg) - ConfigurableFinger2.dependencyMin cfg)
        * cfg.ANALOG_MAX)
      (ConfigurableFinger2.dependencyMax cfg - ConfigurableFinger2.dependencyMin cfg)) := by
  have hpos : 0 < ConfigurableFinger2.dependencyMax cfg - ConfigurableFinger2.dependencyMin cfg := by
    omega
  have hne : ((ConfigurableFinger2.dependencyMax cfg : ℚ)
      - (ConfigurableFinger2.dependencyMin cfg : ℚ)) ≠ 0 := by
    have : (ConfigurableFinger2.dependencyMin cfg : ℚ)
        < (ConfigurableFinger2.dependencyMax cfg : ℚ) := by exact_mod_cast h
    linarith
  have key := truncToInt_intCast_div
    ((constrain v (ConfigurableFinger2.dependencyMin cfg)
      (ConfigurableFinger2.dependencyMax cfg) - ConfigurableFinger2.dependencyMin cfg)
      * cfg.ANALOG_MAX)
    (ConfigurableFinger2.dependencyMax cfg - ConfigurableFinger2.dependencyMin cfg) hpos
  push_cast at key
  simp only [ConfigurableFinger2.thirdKnuckle, accurateMap, if_neg hne, Option.map_some',
    sub_zero, add_zero]
  rw [key]

theorem constrain_mono {v w : Int} (low high : Int) (hlh : low ≤ high) (h : v ≤ w) :
    constrain v low high ≤ constrain w low high := by
  unfold constrain
  split_ifs <;> omega

theorem ConfigurableFinger2.readInput_eq {σ ρ : Type} (C : SensorClass σ ρ) (cfg : Config)
    (f : ConfigurableFinger2 σ) (r : ρ × ρ) (v0 v1 v2 : Int)
    (h0 : (C.getValue f.sensors.1 r.1).1 = some v0)
    (h1 : (C.getValue f.sensors.2 r.2).1 = some v1)
    (h2 : ConfigurableFinger2.thirdKnuckle cfg v1 = some v2) :
    ∃ g, ConfigurableFinger2.readInput C cfg f r = some g ∧ g.values = (v0, v1, v2) ∧
      g.sensors = ((C.getValue f.sensors.1 r.1).2, (C.getValue f.sensors.2 r.2).2) ∧
      g.toFinger = f.toFinger := by
  simp [ConfigurableFinger2.readInput, h0, h1, h2]

theorem ConfigurableFinger2.thirdKnuckle_flat_outside (cfg : Config)
    (h : ConfigurableFinger2.dependencyMin cfg < ConfigurableFinger2.dependencyMax cfg) :
    (∀ v : Int, v ≤ ConfigurableFinger2.dependencyMin cfg →
      ConfigurableFinger2.thirdKnuckle cfg v
        = ConfigurableFinger2.thirdKnuckle cfg (ConfigurableFinger2.dependencyMin cfg)) ∧
    (∀ v : Int, ConfigurableFinger2.dependencyMax cfg ≤ v →
      ConfigurableFinger2.thirdKnuckle cfg v
        = ConfigurableFinger2.thirdKnuckle cfg (ConfigurableFinger2.dependencyMax cfg)) := by
  constructor
  · intro v hv
    rw [ConfigurableFinger2.thirdKnuckle_of_lt cfg h, ConfigurableFinger2.thirdKnuckle_of_lt cfg h]
    have e : constrain v (ConfigurableFinger2.dependencyMin cfg)
        (ConfigurableFinger2.dependencyMax cfg)
        = constrain (ConfigurableFinger2.dependencyMin cfg)
          (ConfigurableFinger2.dependencyMin cfg) (ConfigurableFinger2.dependencyMax cfg) := by
      unfold constrain
      split_ifs <;> omega
    rw [e]
  · intro v hv
    rw [ConfigurableFinger2.thirdKnuckle_of_lt cfg h, ConfigurableFinger2.thirdKnuckle_of_lt cfg h]
    have e : constrain v (ConfigurableFinger2.dependencyMin cfg)
        (ConfigurableFinger2.dependencyMax cfg)
        = constrain (ConfigurableFinger2.dependencyMax cfg)
          (ConfigurableFinger2.dependencyMin cfg) (ConfigurableFinger2.dependencyMax cfg) := by
      unfold constrain
      split_ifs <;> omega
    rw [e]

/-- C7: for the two-knuckle finger with `lo = dependencyMin < hi = dependencyMax`,
`readInput()` stores in `values[2]` the value `thirdKnuckle v` when knuckle 1
reads `v`; that value is non-decreasing in `v`, equals the value at `lo` for
every `v ≤ lo` and the value at `hi` for every `v ≥ hi`. -/
theorem C7_third_knuckle_monotone_and_flat_outside {σ ρ : Type} (C : SensorClass σ ρ)
    (cfg : Config)
    (h : ConfigurableFinger2.dependencyMin cfg < ConfigurableFinger2.dependencyMax cfg) :
    (∀ (f : ConfigurableFinger2 σ) (r : ρ × ρ) (v0 v : Int),
      (C.getValue f.sensors.1 r.1).1 = some v0 → (C.getValue f.sensors.2 r.2).1 = some v →
      ∃ g d, ConfigurableFinger2.readInput C cfg f r = some g ∧ g.values = (v0, v, d) ∧
        ConfigurableFinger2.thirdKnuckle cfg v = some d) ∧
    (∀ v w : Int, v ≤ w → ∃ a b, ConfigurableFinger2.thirdKnuckle cfg v = some a ∧
      ConfigurableFinger2.thirdKnuckle cfg w = some b ∧ a ≤ b) ∧
    (∀ v : Int, v ≤ ConfigurableFinger2.dependencyMin cfg →
      ConfigurableFinger2.thirdKnuckle cfg v
        = ConfigurableFinger2.thirdKnuckle cfg (ConfigurableFinger2.dependencyMin cfg)) ∧
    (∀ v : Int, ConfigurableFinger2.dependencyMax cfg ≤ v →
      ConfigurableFinger2.thirdKnuckle cfg v
        = ConfigurableFinger2.thirdKnuckle cfg (ConfigurableFinger2.dependencyMax cfg)) := by
  refine ⟨?_, ?_, ?_, ?_⟩
  · intro f r v0 v h0 h1
    obtain ⟨g, hg, hv, _⟩ := ConfigurableFinger2.readInput_eq C cfg f r v0 v _ h0 h1
      (ConfigurableFinger2.thirdKnuckle_of_lt cfg h v)
    exact ⟨g, _, hg, hv, ConfigurableFinger2.thirdKnuckle_of_lt cfg h v⟩
  · intro v w hvw
    refine ⟨_, _, ConfigurableFinger2.thirdKnuckle_of_lt cfg h v,
      ConfigurableFinger2.thirdKnuckle_of_lt cfg h w, ?_⟩
    have hc := constrain_mono (ConfigurableFinger2.dependencyMin cfg)
      (ConfigurableFinger2.dependencyMax cfg) h.le hvw
    have hlo := (constrain_bounds v (ConfigurableFinger2.dependencyMin cfg)
      (ConfigurableFinger2.dependencyMax cfg) h.le).1
    have hA : (0 : Int) ≤ cfg.ANALOG_MAX := Int.ofNat_nonneg _
    have hd : 0 ≤ ConfigurableFinger2.dependencyMax cfg - ConfigurableFinger2.dependencyMin cfg := by
      omega
    have hn1 : 0 ≤ (constrain v (ConfigurableFinger2.dependencyMin cfg)
        (ConfigurableFinger2.dependencyMax cfg) - ConfigurableFinger2.dependencyMin cfg)
        * cfg.ANALOG_MAX := mul_nonneg (by omega) hA
    have hn2 : 0 ≤ (constrain w (ConfigurableFinger2.dependencyMin cfg)
        (ConfigurableFinger2.dependencyMax cfg) - ConfigurableFinger2.dependencyMin cfg)
        * cfg.ANALOG_MAX := mul_nonneg (by omega) hA
    rw [Int.tdiv_eq_ediv hn1 hd, Int.tdiv_eq_ediv hn2 hd]
    exact Int.ediv_le_ediv (by omega) (mul_le_mul_of_nonneg_right (by omega) hA)
  · exact (ConfigurableFinger2.thirdKnuckle_flat_outside cfg h).1
  · exact (ConfigurableFinger2.thirdKnuckle_flat_outside cfg h).2

theorem scenarioB_dependencyMin : ConfigurableFinger2.dependencyMin scenarioB = 819 := by
  norm_num [ConfigurableFinger2.dependencyMin, scenarioB, truncToInt]

theorem scenarioB_dependencyMax : ConfigurableFinger2.dependencyMax scenarioB = 3276 := by
  norm_num [ConfigurableFinger2.dependencyMax, scenarioB, truncToInt]

theorem scenarioB_lt :
    ConfigurableFinger2.dependencyMin scenarioB < ConfigurableFinger2.dependencyMax scenarioB := by
  rw [scenarioB_dependencyMin, scenarioB_dependencyMax]
  decide

/-- Witness of C7 in scenario B (`lo = 819 < hi = 3276`), at the readings 1000 and 2000. -/
theorem C7_third_knuckle_monotone_and_flat_outside_witness :
    ConfigurableFinger2.dependencyMin scenarioB < ConfigurableFinger2.dependencyMax scenarioB ∧
    ∃ a b, ConfigurableFinger2.thirdKnuckle scenarioB 1000 = some a ∧
      ConfigurableFinger2.thirdKnuckle scenarioB 2000 = some b ∧ a ≤ b :=
  ⟨scenarioB_lt, (C7_third_knuckle_monotone_and_flat_outside
    (FilteredSensor.cls DummyFilter.ops) scenarioB scenarioB_lt).2.1 1000 2000 (by decide)⟩

theorem scenarioB_thirdKnuckle_low : ConfigurableFinger2.thirdKnuckle scenarioB 0 = some 0 := by
  rw [ConfigurableFinger2.thirdKnuckle_of_lt scenarioB scenarioB_lt, scenarioB_dependencyMin,
    scenarioB_dependencyMax]
  simp [constrain, scenarioB]

theorem scenarioB_thirdKnuckle_high :
    ConfigurableFinger2.thirdKnuckle scenarioB 4095 = some 4095 := by
  rw [ConfigurableFinger2.thirdKnuckle_of_lt scenarioB scenarioB_lt, scenarioB_dependencyMin,
    scenarioB_dependencyMax]
  simp [constrain, scenarioB]
  decide

/-- C8 (as stated, refuted): in scenario B a two-knuckle finger with
pass-through sensors whose knuckle 1 reads 0 caches the derived third knuckle
value 0, so the derived value is not different from 0; with knuckle 1 reading
4095 it caches 4095. -/
theorem C8_derived_value_is_zero_at_reading_zero :
    ((ConfigurableFinger2.readInput (FilteredSensor.cls DummyFilter.ops) scenarioB
        freshFinger2 (0, 0)).map fun g => g.values.2.2) = some 0 ∧
    ((ConfigurableFinger2.readInput (FilteredSensor.cls DummyFilter.ops) scenarioB
        freshFinger2 (0, 4095)).map fun g => g.values.2.2) = some 4095 ∧
    ¬ (∃ g, ConfigurableFinger2.readInput (FilteredSensor.cls DummyFilter.ops) scenarioB
        freshFinger2 (0, 0) = some g ∧ g.values.2.2 ≠ 0) := by
  have e0 : ConfigurableFinger2.readInput (FilteredSensor.cls DummyFilter.ops) scenarioB
      freshFinger2 (0, 0)
      = some ⟨freshFinger2.toFinger, (plainSensor, plainSensor), (0, 0, 0)⟩ := by
    simp [ConfigurableFinger2.readInput, FilteredSensor.cls, FilteredSensor.getValue,
      DummyFilter.ops, freshFinger2, plainSensor, scenarioB_thirdKnuckle_low]
  have e1 : ConfigurableFinger2.readInput (FilteredSensor.cls DummyFilter.ops) scenarioB
      freshFinger2 (0, 4095)
      = some ⟨freshFinger2.toFinger, (plainSensor, plainSensor), (0, 4095, 4095)⟩ := by
    simp [ConfigurableFinger2.readInput, FilteredSensor.cls, FilteredSensor.getValue,
      DummyFilter.ops, freshFinger2, plainSensor, scenarioB_thirdKnuckle_high]
  refine ⟨by rw [e0]; rfl, by rw [e1]; rfl, ?_⟩
  rintro ⟨g, hg, hne⟩
  rw [e0] at hg
  cases hg
  exact hne rfl

/-- C8 (amended): in scenario B (`ANALOG_MAX = 4095`, fractions 0.2 and 0.8,
sub-range `[819, 3276]`), when knuckle 1 reads 0 the derived third knuckle
value after `readInput()` equals the value the lower bound 819 maps to, which
is 0; when knuckle 1 reads 4095 it equals the value the upper bound 3276 maps
to, which is 4095. -/
theorem C8_derived_value_at_range_ends {σ ρ : Type} (C : SensorClass σ ρ)
    (f : ConfigurableFinger2 σ) (r : ρ × ρ) (v0 : Int)
    (h0 : (C.getValue f.sensors.1 r.1).1 = some v0) :
    ConfigurableFinger2.dependencyMin scenarioB = 819 ∧
    ConfigurableFinger2.dependencyMax scenarioB = 3276 ∧
    ConfigurableFinger2.thirdKnuckle scenarioB 819 = some 0 ∧
    ConfigurableFinger2.thirdKnuckle scenarioB 3276 = some 4095 ∧
    ((C.getValue f.sensors.2 r.2).1 = some 0 →
      ∃ g, ConfigurableFinger2.readInput C scenarioB f r = some g ∧ g.values = (v0, 0, 0)) ∧
    ((C.getValue f.sensors.2 r.2).1 = some 4095 →
      ∃ g, ConfigurableFinger2.readInput C scenarioB f r = some g ∧
        g.values = (v0, 4095, 4095)) := by
  have hlo : ConfigurableFinger2.thirdKnuckle scenarioB 819 = some 0 := by
    have := (ConfigurableFinger2.thirdKnuckle_flat_outside scenarioB scenarioB_lt).1 0 (by rw [scenarioB_dependencyMin]; decide)
    rw [scenarioB_dependencyMin, scenarioB_thirdKnuckle_low] at this
    exact this.symm
  have hhi : ConfigurableFinger2.thirdKnuckle scenarioB 3276 = some 4095 := by
    have := (ConfigurableFinger2.thirdKnuckle_flat_outside scenarioB scenarioB_lt).2 4095 (by rw [scenarioB_dependencyMax]; decide)
    rw [scenarioB_dependencyMax, scenarioB_thirdKnuckle_high] at this
    exact this.symm
  refine ⟨scenarioB_dependencyMin, scenarioB_dependencyMax, hlo, hhi, ?_, ?_⟩
  · intro h1
    obtain ⟨g, hg, hv, _⟩ := ConfigurableFinger2.readInput_eq C scenarioB f r v0 0 0 h0 h1
      scenarioB_thirdKnuckle_low
    exact ⟨g, hg, hv⟩
  · intro h1
    obtain ⟨g, hg, hv, _⟩ := ConfigurableFinger2.readInput_eq C scenarioB f r v0 4095 4095 h0 h1
      scenarioB_thirdKnuckle_high
    exact ⟨g, hg, hv⟩

/-- Witness of C8 (amended): the freshly constructed finger with pass-through
sensors, knuckle 0 reading 7 and knuckle 1 reading 4095. -/
theorem C8_derived_value_at_range_ends_witness :
    ((FilteredSensor.cls DummyFilter.ops).getValue freshFinger2.sensors.1 7).1 = some 7 ∧
    ((FilteredSensor.cls DummyFilter.ops).getValue freshFinger2.sensors.2 4095).1 = some 4095 ∧
    ∃ g, ConfigurableFinger2.readInput (FilteredSensor.cls DummyFilter.ops) scenarioB
      freshFinger2 (7, 4095) = some g ∧ g.values = (7, 4095, 4095) :=
  ⟨rfl, rfl, (C8_derived_value_at_range_ends (FilteredSensor.cls DummyFilter.ops) freshFinger2
    (7, 4095) 7 rfl).2.2.2.2.2 rfl⟩

/-! ## Curl of the multi-knuckle fingers -/

theorem tdiv_three_between (a b c : Int) :
    min a (min b c) ≤ Int.tdiv (a + b + c) 3 ∧ Int.tdiv (a + b + c) 3 ≤ max a (max b c) := by
  rcases le_or_lt 0 (a + b + c) with h | h
  · rw [Int.tdiv_eq_ediv h (by decide)]
    constructor <;> omega
  · have e : Int.tdiv (a + b + c) 3 = -((-(a + b + c)) / 3) := by
      rw [← Int.tdiv_eq_ediv (by omega) (by decide), Int.neg_tdiv, neg_neg]
    rw [e]
    constructor <;> omega

theorem truncToInt_sum_div_three (a b c : Int) :
    truncToInt (((a + b + c : Int) : ℚ) / 3) = Int.tdiv (a + b + c) 3 := by
  have key := truncToInt_intCast_div (a + b + c) 3 (by decide)
  simpa using key

/-- C9: for the two-knuckle and the three-knuckle finger, whatever the cached
knuckle values `(v0, v1, v2)` are (for the two-knuckle finger `v2` is the
derived one), `curlValue()` is a function of the cached values alone, equal to
`(v0 + v1 + v2) / 3` truncated toward zero, and so lies between the least and
the greatest of the three. -/
theorem C9_curl_is_truncated_mean {σ : Type} :
    (∀ f : ConfigurableFinger2 σ,
      ConfigurableFinger2.curlValue f
        = Int.tdiv (f.values.1 + f.values.2.1 + f.values.2.2) 3 ∧
      min f.values.1 (min f.values.2.1 f.values.2.2) ≤ ConfigurableFinger2.curlValue f ∧
      ConfigurableFinger2.curlValue f ≤ max f.values.1 (max f.values.2.1 f.values.2.2)) ∧
    (∀ f : ConfigurableFinger3 σ,
      ConfigurableFinger3.curlValue f
        = Int.tdiv (f.values.1 + f.values.2.1 + f.values.2.2) 3 ∧
      min f.values.1 (min f.values.2.1 f.values.2.2) ≤ ConfigurableFinger3.curlValue f ∧
      ConfigurableFinger3.curlValue f ≤ max f.values.1 (max f.values.2.1 f.values.2.2)) := by
  constructor <;> intro f
  · have e : ConfigurableFinger2.curlValue f
        = Int.tdiv (f.values.1 + f.values.2.1 + f.values.2.2) 3 :=
      truncToInt_sum_div_three _ _ _
    rw [e]
    exact ⟨rfl, tdiv_three_between _ _ _⟩
  · have e : ConfigurableFinger3.curlValue f
        = Int.tdiv (f.values.1 + f.values.2.1 + f.values.2.2) 3 :=
      truncToInt_sum_div_three _ _ _
    rw [e]
    exact ⟨rfl, tdiv_three_between _ _ _⟩

/-! ## Calibration fan-out -/

theorem ConfigurableFinger1.enableCalibration1_all {σ : Type} (f : ConfigurableFinger1 σ) :
    (∀ s ∈ ConfigurableFinger1.ownedSensors (ConfigurableFinger1.enableCalibration f),
      s.calibrate = true) ∧
    (∀ s ∈ ConfigurableFinger1.ownedSensors (ConfigurableFinger1.disableCalibration f),
      s.calibrate = false) := by
  simp [ConfigurableFinger1.ownedSensors, ConfigurableFinger1.enableCalibration,
    ConfigurableFinger1.disableCalibration, Sensor.enableCalibration, Sensor.disableCalibration]

theorem ConfigurableFinger2.enableCalibration2_all {σ : Type} (f : ConfigurableFinger2 σ) :
    (∀ s ∈ ConfigurableFinger2.ownedSensors (ConfigurableFinger2.enableCalibration f),
      s.calibrate = true) ∧
    (∀ s ∈ ConfigurableFinger2.ownedSensors (ConfigurableFinger2.disableCalibration f),
      s.calibrate = false) := by
  simp [ConfigurableFinger2.ownedSensors, ConfigurableFinger2.enableCalibration,
    ConfigurableFinger2.disableCalibration, Sensor.enableCalibration, Sensor.disableCalibration]

theorem ConfigurableFinger3.enableCalibration3_all {σ : Type} (f : ConfigurableFinger3 σ) :
    (∀ s ∈ ConfigurableFinger3.ownedSensors (ConfigurableFinger3.enableCalibration f),
      s.calibrate = true) ∧
    (∀ s ∈ ConfigurableFinger3.ownedSensors (ConfigurableFinger3.disableCalibration f),
      s.calibrate = false) := by
  simp [ConfigurableFinger3.ownedSensors, ConfigurableFinger3.enableCalibration,
    ConfigurableFinger3.disableCalibration, Sensor.enableCalibration, Sensor.disableCalibration]

theorem SplaySupport.enableCalibration_base {β σ : Type} (f : SplaySupport β σ) :
    (SplaySupport.enableCalibration f).base = f.base ∧
    (SplaySupport.disableCalibration f).base = f.base ∧
    (SplaySupport.enableCalibration f).splay_sensor.calibrate = true ∧
    (SplaySupport.disableCalibration f).splay_sensor.calibrate = false :=
  ⟨rfl, rfl, rfl, rfl⟩

/-- C10 (code at the failing input): on `ConfigurableFinger<true, 1>` whose
joint sensor and splay sensor both have calibration off, `enableCalibration()`
turns calibration on for the splay sensor only, the joint sensor stays off;
with both on, `disableCalibration()` turns off the splay sensor only. -/
theorem C10_splay_finger_skips_joint_sensors :
    (SplaySupport.ownedSensors ConfigurableFinger1.ownedSensors
      ((ConfigurableFingerSplay1.cls (FilteredSensor.cls DummyFilter.ops) scenarioB
        sampleEncoding).enableCalibration splayFingerOff)).map (fun s => s.calibrate)
      = [false, true] ∧
    (SplaySupport.ownedSensors ConfigurableFinger1.ownedSensors
      ((ConfigurableFingerSplay1.cls (FilteredSensor.cls DummyFilter.ops) scenarioB
        sampleEncoding).disableCalibration splayFingerOn)).map (fun s => s.calibrate)
      = [true, false] := by
  constructor <;> rfl

/-! ## Reset of the calibration -/

theorem MinMaxFilter.minmax_reset_eq_init (I : IntRange) (output_min output_max : Int)
    (s : MinMaxFilter) :
    (MinMaxFilter.ops I output_min output_max).reset s = MinMaxFilter.init output_min output_max :=
  rfl

theorem CenterPointDeviationFilter.center_reset_eq_init (sensor_max : Int)
    (s : CenterPointDeviationFilter) :
    CenterPointDeviationFilter.reset sensor_max s = CenterPointDeviationFilter.init sensor_max :=
  rfl

/-- C11: let the sensors of a finger be `FilteredSensor<F>` objects whose
filter's `reset()` restores the state `fresh` the constructor leaves. For each
of the six finger topologies, after `resetCalibration()` the calibrator of
every sensor the finger owns (joint sensors and, when present, the splay
sensor) is in the state `fresh`, and the cached values are unchanged. -/
theorem C11_reset_reaches_every_owned_sensor {S : Type} (F : Filter S) (fresh : S)
    (hF : ∀ s, F.reset s = fresh) (cfg : Config) (E : EncodedInput) (knuckle_offset : Nat) :
    (∀ f : ConfigurableFinger1 S,
      (∀ s ∈ ConfigurableFinger1.ownedSensors
          ((ConfigurableFinger1.cls (FilteredSensor.cls F) cfg E).resetCalibration f),
        s.members = fresh) ∧
      ((ConfigurableFinger1.cls (FilteredSensor.cls F) cfg E).resetCalibration f).value
        = f.value) ∧
    (∀ f : ConfigurableFinger2 S,
      (∀ s ∈ ConfigurableFinger2.ownedSensors
          ((ConfigurableFinger2.cls (FilteredSensor.cls F) cfg E
            knuckle_offset).resetCalibration f),
        s.members = fresh) ∧
      ((ConfigurableFinger2.cls (FilteredSensor.cls F) cfg E
          knuckle_offset).resetCalibration f).values = f.values) ∧
    (∀ f : ConfigurableFinger3 S,
      (∀ s ∈ ConfigurableFinger3.ownedSensors
          ((ConfigurableFinger3.cls (FilteredSensor.cls F) cfg E
            knuckle_offset).resetCalibration f),
        s.members = fresh) ∧
      ((ConfigurableFinger3.cls (FilteredSensor.cls F) cfg E
          knuckle_offset).resetCalibration f).values = f.values) ∧
    (∀ f : SplaySupport (ConfigurableFinger1 S) S,
      (∀ s ∈ SplaySupport.ownedSensors ConfigurableFinger1.ownedSensors
          ((ConfigurableFingerSplay1.cls (FilteredSensor.cls F) cfg E).resetCalibration f),
        s.members = fresh) ∧
      ((ConfigurableFingerSplay1.cls (FilteredSensor.cls F) cfg E).resetCalibration f).base.value
        = f.base.value ∧
      ((ConfigurableFingerSplay1.cls (FilteredSensor.cls F) cfg E).resetCalibration f).splay_value
        = f.splay_value) ∧
    (∀ f : SplaySupport (ConfigurableFinger2 S) S,
      (∀ s ∈ SplaySupport.ownedSensors ConfigurableFinger2.ownedSensors
          ((ConfigurableFingerSplay2.cls (FilteredSensor.cls F) cfg E
            knuckle_offset).resetCalibration f),
        s.members = fresh) ∧
      ((ConfigurableFingerSplay2.cls (FilteredSensor.cls F) cfg E
          knuckle_offset).resetCalibration f).base.values = f.base.values ∧
      ((ConfigurableFingerSplay2.cls (FilteredSensor.cls F) cfg E
          knuckle_offset).resetCalibration f).splay_value = f.splay_value) ∧
    (∀ f : SplaySupport (ConfigurableFinger3 S) S,
      (∀ s ∈ SplaySupport.ownedSensors ConfigurableFinger3.ownedSensors
          ((ConfigurableFingerSplay3.cls (FilteredSensor.cls F) cfg E
            knuckle_offset).resetCalibration f),
        s.members = fresh) ∧
      ((ConfigurableFingerSplay3.cls (FilteredSensor.cls F) cfg E
          knuckle_offset).resetCalibration f).base.values = f.base.values ∧
      ((ConfigurableFingerSplay3.cls (FilteredSensor.cls F) cfg E
          knuckle_offset).resetCalibration f).splay_value = f.splay_value) := by
  refine ⟨?_, ?_, ?_, ?_, ?_, ?_⟩ <;> intro f <;>
    simp [ConfigurableFingerSplay1.cls, ConfigurableFingerSplay2.cls,
      ConfigurableFingerSplay3.cls, SplaySupport.cls, SplaySupport.resetCalibration,
      SplaySupport.ownedSensors, ConfigurableFinger1.cls, ConfigurableFinger2.cls,
      ConfigurableFinger3.cls, ConfigurableFinger1.resetCalibration,
      ConfigurableFinger2.resetCalibration, ConfigurableFinger3.resetCalibration,
      ConfigurableFinger1.ownedSensors, ConfigurableFinger2.ownedSensors,
      ConfigurableFinger3.ownedSensors, FilteredSensor.cls, FilteredSensor.resetCalibration, hF]

/-- Witness of C11: a one-knuckle finger with splay whose two
`MinMaxFilter<int, 0, 4095>` sensors have learned ranges. -/
theorem C11_reset_reaches_every_owned_sensor_witness :
    (∀ s : MinMaxFilter, (MinMaxFilter.ops int32 0 4095).reset s = MinMaxFilter.init 0 4095) ∧
    (∀ s ∈ SplaySupport.ownedSensors ConfigurableFinger1.ownedSensors
        ((ConfigurableFingerSplay1.cls (FilteredSensor.cls (MinMaxFilter.ops int32 0 4095)) scenarioB
          sampleEncoding).resetCalibration calibratedSplayFinger),
      s.members = MinMaxFilter.init 0 4095) ∧
    ((ConfigurableFingerSplay1.cls (FilteredSensor.cls (MinMaxFilter.ops int32 0 4095)) scenarioB
        sampleEncoding).resetCalibration calibratedSplayFinger).base.value = 1200 ∧
    ((ConfigurableFingerSplay1.cls (FilteredSensor.cls (MinMaxFilter.ops int32 0 4095)) scenarioB
        sampleEncoding).resetCalibration calibratedSplayFinger).splay_value = 2100 :=
  ⟨MinMaxFilter.minmax_reset_eq_init int32 0 4095,
    (C11_reset_reaches_every_owned_sensor (MinMaxFilter.ops int32 0 4095) (MinMaxFilter.init 0 4095)
      (MinMaxFilter.minmax_reset_eq_init int32 0 4095) scenarioB sampleEncoding 0).2.2.2.1
      calibratedSplayFinger⟩

/-! ## The centre-point filters -/

theorem map_symmetric (x d output_min output_max : Int) (hd : 0 < d) :
    map x (-d) d output_min output_max
      = some (Int.tdiv ((x + d) * (output_max - output_min)) (2 * d) + output_min) := by
  have e : d - -d = 2 * d := by ring
  have hne : 2 * d ≠ 0 := by omega
  have e2 : x - -d = x + d := by ring
  simp only [map, e, e2, if_neg hne]

theorem map_symmetric_zero (d output_min output_max : Int) (hd : 0 < d) (h0 : 0 ≤ output_min)
    (h : output_min ≤ output_max) :
    map 0 (-d) d output_min output_max = some (Int.tdiv (output_min + output_max) 2) := by
  rw [map_symmetric _ _ _ _ hd]
  have hR : 0 ≤ output_max - output_min := by omega
  have e : (0 + d) * (output_max - output_min) = d * (output_max - output_min) := by ring
  have e2 : 2 * d = d * 2 := by ring
  rw [e, e2, Int.tdiv_eq_ediv (mul_nonneg hd.le hR) (by omega),
    Int.mul_ediv_mul_of_pos _ _ hd, Int.tdiv_eq_ediv (by omega) (by decide)]
  congr 1
  omega

theorem truncToInt_half (a : Int) : truncToInt ((a : ℚ) / 2) = Int.tdiv a 2 := by
  have key := truncToInt_intCast_div a 2 (by decide)
  simpa using key

theorem CenterPointDeviationFilter.filter_eq (sensor_max d output_min output_max : Int)
    (s : CenterPointDeviationFilter) (r v : Int)
    (hv : CenterPointDeviationFilter.sensorUnits sensor_max output_min output_max r = some v) :
    CenterPointDeviationFilter.filter sensor_max d output_min output_max s r
      = map (constrain (v - Int.tdiv (s.range_min + s.range_max) 2) (-d) d) (-d) d
          output_min output_max := by
  unfold CenterPointDeviationFilter.sensorUnits at hv
  unfold CenterPointDeviationFilter.filter
  cases ha : accurateMap r output_min output_max 0 sensor_max with
  | none => rw [ha] at hv; simp at hv
  | some q =>
    rw [ha] at hv
    simp only [Option.map_some', Option.some.injEq] at hv
    simp only [Option.some_bind, hv, truncToInt_half]

theorem CenterPointDeviationFilter.filter_at_center (sensor_max d output_min output_max : Int)
    (hd : 0 < d) (h0 : 0 ≤ output_min) (h : output_min ≤ output_max)
    (s : CenterPointDeviationFilter) (r : Int)
    (hr : CenterPointDeviationFilter.sensorUnits sensor_max output_min output_max r
      = some (Int.tdiv (s.range_min + s.range_max) 2)) :
    CenterPointDeviationFilter.filter sensor_max d output_min output_max s r
      = some (Int.tdiv (output_min + output_max) 2) := by
  rw [CenterPointDeviationFilter.filter_eq _ _ _ _ _ _ _ hr, sub_self]
  have e : constrain 0 (-d) d = 0 := by
    unfold constrain
    split_ifs <;> omega
  rw [e, map_symmetric_zero d output_min output_max hd h0 h]

/-- C12 (as stated, refuted): the freshly constructed configured filter
`CenterPointDeviationFilter<int, 270, 20, 0, 4095>` returns 0 for the raw input
0, not the midpoint `(0 + 4095) / 2 = 2047`. -/
theorem C12_fresh_center_point_filter_is_not_constant :
    CenterPointDeviationFilter.filter 270 20 0 4095 (CenterPointDeviationFilter.init 270) 0
      = some 0 ∧
    Int.tdiv (0 + 4095) 2 = 2047 ∧
    ¬ (CenterPointDeviationFilter.filter 270 20 0 4095 (CenterPointDeviationFilter.init 270) 0
      = some (Int.tdiv (0 + 4095) 2)) := by
  have e : CenterPointDeviationFilter.filter 270 20 0 4095
      (CenterPointDeviationFilter.init 270) 0 = some 0 := by
    norm_num [CenterPointDeviationFilter.filter, CenterPointDeviationFilter.init, accurateMap,
      truncToInt, constrain, map]
  refine ⟨e, by decide, ?_⟩
  rw [e]
  decide

theorem CenterPointDeviationFilter.sensorUnits_eq_tdiv (sensor_max output_min output_max : Int)
    (h : output_min < output_max) (r : Int) :
    CenterPointDeviationFilter.sensorUnits sensor_max output_min output_max r
      = some (Int.tdiv ((r - output_min) * sensor_max) (output_max - output_min)) := by
  have hne : ((output_max : ℚ) - (output_min : ℚ)) ≠ 0 := by
    have : (output_min : ℚ) < (output_max : ℚ) := by exact_mod_cast h
    linarith
  have key := truncToInt_intCast_div ((r - output_min) * sensor_max) (output_max - output_min)
    (by omega)
  push_cast at key
  simp [CenterPointDeviationFilter.sensorUnits, accurateMap, hne, key]

/-- C12 (amended): with `driver_max_deviation = d > 0` and `0 ≤ output_min <
output_max`, a freshly constructed `CenterPointDeviationFilter`, and one right
after `reset()`, returns for every raw input `r` the clamped deviation of
`v = (r - output_min) * sensor_max / (output_max - output_min)` (the reading
in sensor units, an `int`) from the seeded centre `sensor_max / 2`, mapped onto
the output range: `(constrain(v - sensor_max / 2, -d, d) + d) * (output_max -
output_min) / (2 * d) + output_min`; this is `(output_min + output_max) / 2`
whenever `v = sensor_max / 2`. -/
theorem C12_fresh_center_point_filter_maps_deviation_from_seeded_center
    (sensor_max driver_max_deviation output_min output_max : Int)
    (hd : 0 < driver_max_deviation) (h0 : 0 ≤ output_min) (h : output_min < output_max)
    (s : CenterPointDeviationFilter) (r : Int) :
    CenterPointDeviationFilter.sensorUnits sensor_max output_min output_max r
      = some (Int.tdiv ((r - output_min) * sensor_max) (output_max - output_min)) ∧
    CenterPointDeviationFilter.filter sensor_max driver_max_deviation output_min output_max
        (CenterPointDeviationFilter.init sensor_max) r
      = some (Int.tdiv
          ((constrain (Int.tdiv ((r - output_min) * sensor_max) (output_max - output_min)
              - Int.tdiv sensor_max 2) (-driver_max_deviation) driver_max_deviation
            + driver_max_deviation) * (output_max - output_min))
          (2 * driver_max_deviation) + output_min) ∧
    CenterPointDeviationFilter.filter sensor_max driver_max_deviation output_min output_max
        (CenterPointDeviationFilter.reset sensor_max s) r
      = CenterPointDeviationFilter.filter sensor_max driver_max_deviation output_min output_max
        (CenterPointDeviationFilter.init sensor_max) r ∧
    (Int.tdiv ((r - output_min) * sensor_max) (output_max - output_min) = Int.tdiv sensor_max 2 →
      CenterPointDeviationFilter.filter sensor_max driver_max_deviation output_min output_max
          (CenterPointDeviationFilter.init sensor_max) r
        = some (Int.tdiv (output_min + output_max) 2)) := by
  have hv := CenterPointDeviationFilter.sensorUnits_eq_tdiv sensor_max output_min output_max h r
  have hc : (CenterPointDeviationFilter.init sensor_max).range_min
      + (CenterPointDeviationFilter.init sensor_max).range_max = sensor_max := by
    simp [CenterPointDeviationFilter.init]
  refine ⟨hv, ?_, rfl, ?_⟩
  · rw [CenterPointDeviationFilter.filter_eq _ _ _ _ _ _ _ hv, hc,
      map_symmetric _ _ _ _ hd]
  · intro hmid
    apply CenterPointDeviationFilter.filter_at_center sensor_max driver_max_deviation
      output_min output_max hd h0 h.le
    rw [hc, hv, hmid]

/-- Witness of C12 (amended): the configured filter (270, 20, 0, 4095) at the
raw input 2050, whose image in sensor units is 135. -/
theorem C12_fresh_center_point_filter_maps_deviation_from_seeded_center_witness :
    (0 : Int) < 20 ∧ (0 : Int) ≤ 0 ∧ (0 : Int) < 4095 ∧
    Int.tdiv ((2050 - 0) * 270) (4095 - 0) = Int.tdiv 270 2 ∧
    CenterPointDeviationFilter.filter 270 20 0 4095 (CenterPointDeviationFilter.init 270) 2050
      = some (Int.tdiv (0 + 4095) 2) :=
  ⟨by decide, by decide, by decide, by decide,
    (C12_fresh_center_point_filter_maps_deviation_from_seeded_center 270 20 0 4095 (by decide)
      (by decide) (by decide) ⟨0, 0⟩ 2050).2.2.2 (by decide)⟩

/-- C13 (as stated, refuted): the configured filter (270, 20, 0, 4095) in the
seeded state `range_min = 270`, `range_max = 0`, symmetric about 135, returns
1945 at `c = (0 + 4095) / 2 = 2047`, whose image in sensor units is 134. -/
theorem C13_symmetric_state_center_reading_off_midpoint :
    (CenterPointDeviationFilter.init 270).range_min
      + (CenterPointDeviationFilter.init 270).range_max = 270 ∧
    CenterPointDeviationFilter.sensorUnits 270 0 4095 (Int.tdiv (0 + 4095) 2) = some 134 ∧
    CenterPointDeviationFilter.filter 270 20 0 4095 (CenterPointDeviationFilter.init 270)
        (Int.tdiv (0 + 4095) 2) = some 1945 ∧
    ¬ (CenterPointDeviationFilter.filter 270 20 0 4095 (CenterPointDeviationFilter.init 270)
        (Int.tdiv (0 + 4095) 2) = some (Int.tdiv (0 + 4095) 2)) := by
  have ec : Int.tdiv (0 + 4095) 2 = 2047 := by decide
  have e1 : CenterPointDeviationFilter.sensorUnits 270 0 4095 2047 = some 134 := by
    rw [CenterPointDeviationFilter.sensorUnits_eq_tdiv 270 0 4095 (by decide)]
    decide
  have e2 : CenterPointDeviationFilter.filter 270 20 0 4095
      (CenterPointDeviationFilter.init 270) 2047 = some 1945 := by
    rw [CenterPointDeviationFilter.filter_eq _ _ _ _ _ _ _ e1, map_symmetric _ _ _ _ (by decide)]
    decide
  rw [ec]
  refine ⟨by decide, e1, e2, ?_⟩
  rw [e2]
  decide

/-- C13 (amended): with `driver_max_deviation > 0` and `0 ≤ output_min <
output_max`, in every state with `range_min + range_max = sensor_max` the
filter returns `(output_min + output_max) / 2` at every raw reading whose
remap into sensor units, converted to `int`, is `sensor_max / 2`. For the
configured instance (270, 20) these are the readings 2048 to 2062 on the
output range `[0, 4095]` and 512 to 515 on `[0, 1023]`, so the midpoint is
returned at `(output_min + output_max + 1) / 2`. -/
theorem C13_symmetric_state_midpoint_at_readings_of_the_center
    (sensor_max driver_max_deviation output_min output_max : Int)
    (hd : 0 < driver_max_deviation) (h0 : 0 ≤ output_min) (h : output_min < output_max)
    (s : CenterPointDeviationFilter) (hs : s.range_min + s.range_max = sensor_max) :
    (∀ r : Int,
      CenterPointDeviationFilter.sensorUnits sensor_max output_min output_max r
        = some (Int.tdiv sensor_max 2) →
      CenterPointDeviationFilter.filter sensor_max driver_max_deviation output_min output_max
        s r = some (Int.tdiv (output_min + output_max) 2)) ∧
    (∀ t : CenterPointDeviationFilter, t.range_min + t.range_max = 270 →
      ∀ r : Int, 2048 ≤ r → r ≤ 2062 →
        CenterPointDeviationFilter.filter 270 20 0 4095 t r = some 2047) ∧
    (∀ t : CenterPointDeviationFilter, t.range_min + t.range_max = 270 →
      ∀ r : Int, 512 ≤ r → r ≤ 515 →
        CenterPointDeviationFilter.filter 270 20 0 1023 t r = some 511) := by
  refine ⟨?_, ?_, ?_⟩
  · intro r hr
    exact CenterPointDeviationFilter.filter_at_center sensor_max driver_max_deviation
      output_min output_max hd h0 h.le s r (by rw [hs]; exact hr)
  · intro t ht r h1 h2
    have e := CenterPointDeviationFilter.filter_at_center 270 20 0 4095 (by decide) (by decide)
      (by decide) t r (by
        rw [ht, CenterPointDeviationFilter.sensorUnits_eq_tdiv 270 0 4095 (by decide),
          Int.tdiv_eq_ediv (by omega) (by decide)]
        have e2 : Int.tdiv 270 2 = 135 := by decide
        rw [e2]
        congr 1
        omega)
    rw [e]
    decide
  · intro t ht r h1 h2
    have e := CenterPointDeviationFilter.filter_at_center 270 20 0 1023 (by decide) (by decide)
      (by decide) t r (by
        rw [ht, CenterPointDeviationFilter.sensorUnits_eq_tdiv 270 0 1023 (by decide),
          Int.tdiv_eq_ediv (by omega) (by decide)]
        have e2 : Int.tdiv 270 2 = 135 := by decide
        rw [e2]
        congr 1
        omega)
    rw [e]
    decide

/-- Witness of C13 (amended): the configured filter (270, 20, 0, 4095) in the
seeded state (270, 0) at the raw reading 2048. -/
theorem C13_symmetric_state_midpoint_at_readings_of_the_center_witness :
    (0 : Int) < 20 ∧ (0 : Int) ≤ 0 ∧ (0 : Int) < 4095 ∧ (270 : Int) + 0 = 270 ∧
    CenterPointDeviationFilter.sensorUnits 270 0 4095 2048 = some (Int.tdiv 270 2) ∧
    CenterPointDeviationFilter.filter 270 20 0 4095 ⟨270, 0⟩ 2048
      = some (Int.tdiv (0 + 4095) 2) :=
  have hr : CenterPointDeviationFilter.sensorUnits 270 0 4095 2048 = some (Int.tdiv 270 2) := by
    rw [CenterPointDeviationFilter.sensorUnits_eq_tdiv 270 0 4095 (by decide)]
    decide
  ⟨by decide, by decide, by decide, by decide, hr,
    (C13_symmetric_state_midpoint_at_readings_of_the_center 270 20 0 4095 (by decide)
      (by decide) (by decide) ⟨270, 0⟩ (by decide)).1 2048 hr⟩

theorem ExponentialToLinearFilter.run_eq (I : IntRange) (output_min output_max : Int)
    (s : MinMaxFilter)
    (calls : List FilterCall) :
    (ExponentialToLinearFilter.ops I output_min output_max).run s calls = s := by
  induction calls generalizing s with
  | nil => rfl
  | cons c cs ih =>
    cases c <;> exact ih s

theorem FixedCenterPointDeviationFilter.fixed_run_eq
    (sensor_max d output_min output_max : Int) (s : Unit) (calls : List FilterCall) :
    (FixedCenterPointDeviationFilter.ops sensor_max d output_min output_max).run s calls = s :=
  rfl

/-- C15 (as stated, refuted): after `update(1000)` then `update(3000)` on a
fresh instance of each, `MinMaxFilter<int, 0, 4095>` returns 0 for the raw
input 500 while `ExponentialToLinearFilter<int, e, 0, 4095>`, whose `update`
does nothing, still returns the midpoint 2047. -/
theorem C15_stub_filter_differs_after_updates :
    (MinMaxFilter.ops int32 0 4095).filter
      ((MinMaxFilter.ops int32 0 4095).run (MinMaxFilter.init 0 4095)
        [FilterCall.update 1000, FilterCall.update 3000]) 500 = some 0 ∧
    (ExponentialToLinearFilter.ops int32 0 4095).filter
      ((ExponentialToLinearFilter.ops int32 0 4095).run (ExponentialToLinearFilter.init 0 4095)
        [FilterCall.update 1000, FilterCall.update 3000]) 500 = some 2047 ∧
    (ExponentialToLinearFilter.ops int32 0 4095).filter
      ((ExponentialToLinearFilter.ops int32 0 4095).run (ExponentialToLinearFilter.init 0 4095)
        [FilterCall.update 1000, FilterCall.update 3000]) 500
      ≠ (MinMaxFilter.ops int32 0 4095).filter
        ((MinMaxFilter.ops int32 0 4095).run (MinMaxFilter.init 0 4095)
          [FilterCall.update 1000, FilterCall.update 3000]) 500 := by
  have e1 : (MinMaxFilter.ops int32 0 4095).filter
      ((MinMaxFilter.ops int32 0 4095).run (MinMaxFilter.init 0 4095)
        [FilterCall.update 1000, FilterCall.update 3000]) 500 = some 0 := by
    have e : (MinMaxFilter.ops int32 0 4095).run (MinMaxFilter.init 0 4095)
        [FilterCall.update 1000, FilterCall.update 3000] = ⟨1000, 3000⟩ := by
      simp [Filter.run, MinMaxFilter.ops, MinMaxFilter.update, MinMaxFilter.init]
    rw [e]
    exact (MinMaxFilter.filter_eval int32 0 4095 ⟨1000, 3000⟩ (by decide) 500 (-1023)
      (by norm_num [truncToInt]; decide) (by decide) (by decide)).trans (by decide)
  have e2 : (ExponentialToLinearFilter.ops int32 0 4095).filter
      ((ExponentialToLinearFilter.ops int32 0 4095).run (ExponentialToLinearFilter.init 0 4095)
        [FilterCall.update 1000, FilterCall.update 3000]) 500 = some 2047 := by
    rw [ExponentialToLinearFilter.run_eq]
    norm_num [ExponentialToLinearFilter.ops, ExponentialToLinearFilter.init,
      MinMaxFilter.filter, MinMaxFilter.init, truncToInt]
    decide
  refine ⟨e1, e2, ?_⟩
  rw [e1, e2]
  decide

/-- C15 (amended): `ExponentialToLinearFilter<int, e, output_min, output_max>`
behaves like a `MinMaxFilter<int, output_min, output_max>` that was never
updated: after every sequence of `reset()` and `update(x)` calls on a fresh
instance its state is still the constructed one, and for every raw input `r`
its `filter(r)` is what a freshly constructed `MinMaxFilter` returns. -/
theorem C15_stub_filter_is_a_fresh_min_max_filter (I : IntRange) (output_min output_max : Int)
    (calls : List FilterCall) (r : Int) :
    (ExponentialToLinearFilter.ops I output_min output_max).run
        (ExponentialToLinearFilter.init output_min output_max) calls
      = MinMaxFilter.init output_min output_max ∧
    (ExponentialToLinearFilter.ops I output_min output_max).filter
        ((ExponentialToLinearFilter.ops I output_min output_max).run
          (ExponentialToLinearFilter.init output_min output_max) calls) r
      = (MinMaxFilter.ops I output_min output_max).filter
          (MinMaxFilter.init output_min output_max) r := by
  rw [ExponentialToLinearFilter.run_eq]
  exact ⟨rfl, rfl⟩

/-- C16: in every state of `CenterPointDeviationFilter` with
`(range_min + range_max) / 2 = sensor_max / 2` (integer division), among them
the seeded state `(sensor_max, 0)`, `FixedCenterPointDeviationFilter.filter(r)`
equals `CenterPointDeviationFilter.filter(r)` for every raw input `r`; and the
fixed filter returns the same result after any sequence of `update()` and
`reset()` calls. -/
theorem C16_fixed_filter_is_center_point_filter_at_physical_center
    (sensor_max driver_max_deviation output_min output_max : Int)
    (s : CenterPointDeviationFilter)
    (hs : Int.tdiv (s.range_min + s.range_max) 2 = Int.tdiv sensor_max 2)
    (calls : List FilterCall) (r : Int) :
    FixedCenterPointDeviationFilter.filter sensor_max driver_max_deviation output_min
        output_max () r
      = CenterPointDeviationFilter.filter sensor_max driver_max_deviation output_min
        output_max s r ∧
    FixedCenterPointDeviationFilter.filter sensor_max driver_max_deviation output_min
        output_max () r
      = CenterPointDeviationFilter.filter sensor_max driver_max_deviation output_min
        output_max (CenterPointDeviationFilter.init sensor_max) r ∧
    (FixedCenterPointDeviationFilter.ops sensor_max driver_max_deviation output_min
        output_max).filter
      ((FixedCenterPointDeviationFilter.ops sensor_max driver_max_deviation output_min
        output_max).run () calls) r
      = (FixedCenterPointDeviationFilter.ops sensor_max driver_max_deviation output_min
        output_max).filter () r := by
  have key : ∀ t : CenterPointDeviationFilter,
      Int.tdiv (t.range_min + t.range_max) 2 = Int.tdiv sensor_max 2 →
      FixedCenterPointDeviationFilter.filter sensor_max driver_max_deviation output_min
          output_max () r
        = CenterPointDeviationFilter.filter sensor_max driver_max_deviation output_min
          output_max t r := by
    intro t ht
    unfold FixedCenterPointDeviationFilter.filter CenterPointDeviationFilter.filter
    simp only [truncToInt_half, ht]
  refine ⟨key s hs, key _ (by simp [CenterPointDeviationFilter.init]), ?_⟩
  rw [FixedCenterPointDeviationFilter.fixed_run_eq]

/-- Witness of C16: the configured parameters (270, 20, 0, 4095) in the state
(100, 171), whose centre `271 / 2` is 135 like `270 / 2`. -/
theorem C16_fixed_filter_is_center_point_filter_at_physical_center_witness :
    Int.tdiv ((100 : Int) + 171) 2 = Int.tdiv 270 2 ∧
    FixedCenterPointDeviationFilter.filter 270 20 0 4095 () 1000
      = CenterPointDeviationFilter.filter 270 20 0 4095 ⟨100, 171⟩ 1000 :=
  ⟨by decide, (C16_fixed_filter_is_center_point_filter_at_physical_center 270 20 0 4095
    ⟨100, 171⟩ (by decide) [FilterCall.update 5, FilterCall.reset] 1000).1⟩

/-! ## Composite Hall-effect sensors -/

theorem HallEffectSplayMultiSensor.splay_getValue_eq (min max : Int) (s : Sensor HallEffectPair)
    (l r : Int) :
    (HallEffectSplayMultiSensor.getValue min max s (l, r)).1
      = some (Int.tdiv (min + max) 2 - l + r) := by
  simp [HallEffectSplayMultiSensor.getValue, HallEffectSensor.cls, FilteredSensor.cls,
    FilteredSensor.getValue, DummyFilter.ops]

theorem HallEffectCurlMultiSensor.curl_getValue_eq (min max : Int) (s : Sensor HallEffectPair)
    (l r : Int) :
    (HallEffectCurlMultiSensor.getValue min max s (l, r)).1
      = some (max + ((Int.tdiv (min + max) 2 - l) + (Int.tdiv (min + max) 2 - r))) := by
  simp [HallEffectCurlMultiSensor.getValue, HallEffectSensor.cls, FilteredSensor.cls,
    FilteredSensor.getValue, DummyFilter.ops]

/-- C17: for `HallEffectSplayMultiSensor<min, max>` whose left and right
sub-sensors read `l` and `r`, `getValue()` is `mid - l + r` with
`mid = (min + max) / 2` in integer division; in particular whenever
`mid = 2048`, with `l = 1500` and `r = 2500` the value is 3048. -/
theorem C17_splay_pair_value (s : Sensor HallEffectPair) :
    (∀ min max l r : Int,
      ((HallEffectSplayMultiSensor.cls min max).getValue s (l, r)).1
        = some (Int.tdiv (min + max) 2 - l + r)) ∧
    (∀ min max : Int, Int.tdiv (min + max) 2 = 2048 →
      ((HallEffectSplayMultiSensor.cls min max).getValue s (1500, 2500)).1 = some 3048) := by
  refine ⟨fun min max l r => HallEffectSplayMultiSensor.splay_getValue_eq min max s l r, ?_⟩
  intro min max hmid
  have e := HallEffectSplayMultiSensor.splay_getValue_eq min max s 1500 2500
  rw [hmid] at e
  exact e

/-- Witness of C17: `min = 0` and `max = 4096`, whose midpoint is 2048. -/
theorem C17_splay_pair_value_witness :
    Int.tdiv (0 + 4096) 2 = 2048 ∧
    ((HallEffectSplayMultiSensor.cls 0 4096).getValue hallPair (1500, 2500)).1 = some 3048 :=
  ⟨by decide, (C17_splay_pair_value hallPair).2 0 4096 (by decide)⟩

/-- C18: for `HallEffectCurlMultiSensor<min, max>` whose left and right
sub-sensors read `l` and `r`, `getValue()` is `max + (mid - l) + (mid - r)`
with `mid = (min + max) / 2` in integer division. -/
theorem C18_curl_pair_value (min max : Int) (s : Sensor HallEffectPair) (l r : Int) :
    ((HallEffectCurlMultiSensor.cls min max).getValue s (l, r)).1
      = some (max + (Int.tdiv (min + max) 2 - l) + (Int.tdiv (min + max) 2 - r)) := by
  have e := HallEffectCurlMultiSensor.curl_getValue_eq min max s l r
  rw [← add_assoc] at e
  exact e

/-- C19 (as stated, refuted): with `min = 0 ≤ max = 4095` and both sub-sensor
readings in `[0, 4095]`, the curl pair reading (0, 0) gives 8189, above
`max`, and the splay pair reading (4095, 0) gives -2048, below `min`. -/
theorem C19_pair_values_leave_the_range :
    ((HallEffectCurlMultiSensor.cls 0 4095).getValue hallPair (0, 0)).1 = some 8189 ∧
    ((HallEffectSplayMultiSensor.cls 0 4095).getValue hallPair (4095, 0)).1 = some (-2048) ∧
    ¬ (∃ v, ((HallEffectCurlMultiSensor.cls 0 4095).getValue hallPair (0, 0)).1 = some v ∧
      0 ≤ v ∧ v ≤ 4095) ∧
    ¬ (∃ v, ((HallEffectSplayMultiSensor.cls 0 4095).getValue hallPair (4095, 0)).1 = some v ∧
      0 ≤ v ∧ v ≤ 4095) := by
  have e1 : ((HallEffectCurlMultiSensor.cls 0 4095).getValue hallPair (0, 0)).1 = some 8189 := by
    have e := HallEffectCurlMultiSensor.curl_getValue_eq 0 4095 hallPair 0 0
    have e2 : (4095 : Int) + ((Int.tdiv (0 + 4095) 2 - 0) + (Int.tdiv (0 + 4095) 2 - 0))
        = 8189 := by decide
    rw [e2] at e
    exact e
  have e3 : ((HallEffectSplayMultiSensor.cls 0 4095).getValue hallPair (4095, 0)).1
      = some (-2048) := by
    have e := HallEffectSplayMultiSensor.splay_getValue_eq 0 4095 hallPair 4095 0
    have e2 : Int.tdiv (0 + 4095) 2 - 4095 + 0 = -2048 := by decide
    rw [e2] at e
    exact e
  refine ⟨e1, e3, ?_, ?_⟩
  · rintro ⟨v, hv, h0, h1⟩
    rw [e1] at hv
    cases hv
    omega
  · rintro ⟨v, hv, h0, h1⟩
    rw [e3] at hv
    cases hv
    omega

/-- C19 (amended): for `HallEffectCurlMultiSensor<min, max>` and
`HallEffectSplayMultiSensor<min, max>` with `min ≤ max` and
`mid = (min + max) / 2`, whenever both sub-sensor readings lie in `[min, max]`
the curl value lies in `[2 * mid - max, max + 2 * mid - 2 * min]` and the splay
value lies in `[mid - (max - min), mid + (max - min)]`. -/
theorem C19_pair_values_bounds (min max : Int) (s : Sensor HallEffectPair)
    (l r : Int) (hl : min ≤ l ∧ l ≤ max) (hr : min ≤ r ∧ r ≤ max) :
    (∃ v, ((HallEffectCurlMultiSensor.cls min max).getValue s (l, r)).1 = some v ∧
      2 * Int.tdiv (min + max) 2 - max ≤ v ∧
      v ≤ max + 2 * Int.tdiv (min + max) 2 - 2 * min) ∧
    (∃ v, ((HallEffectSplayMultiSensor.cls min max).getValue s (l, r)).1 = some v ∧
      Int.tdiv (min + max) 2 - (max - min) ≤ v ∧
      v ≤ Int.tdiv (min + max) 2 + (max - min)) := by
  constructor
  · exact ⟨_, HallEffectCurlMultiSensor.curl_getValue_eq min max s l r, by omega, by omega⟩
  · exact ⟨_, HallEffectSplayMultiSensor.splay_getValue_eq min max s l r, by omega, by omega⟩

/-- Witness of C19 (amended): `min = 0`, `max = 4095`, both readings 2000. -/
theorem C19_pair_values_bounds_witness :
    ((0 : Int) ≤ 2000 ∧ (2000 : Int) ≤ 4095) ∧
    (∃ v, ((HallEffectCurlMultiSensor.cls 0 4095).getValue hallPair (2000, 2000)).1 = some v ∧
      2 * Int.tdiv (0 + 4095) 2 - 4095 ≤ v ∧
      v ≤ 4095 + 2 * Int.tdiv (0 + 4095) 2 - 2 * 0) :=
  ⟨by decide,
    (C19_pair_values_bounds 0 4095 hallPair 2000 2000 (by decide) (by decide)).1⟩

/-! ## The Bluetooth transport -/

/-- C20: `readData(input, size)` on an empty queue returns false and changes
neither the queue nor the memory at `input`; otherwise, with oldest message
`m` and `n = min(|m|, size)`, it returns true iff `n > 0`, leaves the other
messages in their order, stores the first `n` bytes of `m` at `input[0..n)`
and a NUL at `input[n]`, and leaves the bytes beyond `input[n]` as they were. -/
theorem C20_readData_takes_oldest_message (c : BLESerialCommunication) (input : Memory)
    (size : Nat) :
    (c.m_ReadBufer = [] → BLESerialCommunication.readData c input size = (false, c, input)) ∧
    (∀ (m : List Char) (rest : List (List Char)), c.m_ReadBufer = m :: rest →
      ((BLESerialCommunication.readData c input size).1 = true ↔ 0 < min m.length size) ∧
      (BLESerialCommunication.readData c input size).2.1.m_ReadBufer = rest ∧
      (BLESerialCommunication.readData c input size).2.1.m_isOpen = c.m_isOpen ∧
      (∀ i, i < min m.length size →
        m.get? i = some ((BLESerialCommunication.readData c input size).2.2 i)) ∧
      (BLESerialCommunication.readData c input size).2.2 (min m.length size) = Char.ofNat 0 ∧
      (∀ i, min m.length size < i →
        (BLESerialCommunication.readData c input size).2.2 i = input i)) := by
  constructor
  · intro h
    simp [BLESerialCommunication.readData, h]
  · intro m rest h
    have e : BLESerialCommunication.readData c input size
        = (decide (min m.length size > 0), ⟨c.m_isOpen, rest⟩,
          fun i => if i = min m.length size then Char.ofNat 0
            else if i < min m.length size then m.getD i (Char.ofNat 0) else input i) := by
      unfold BLESerialCommunication.readData
      rw [h]
    rw [e]
    refine ⟨by simp, rfl, rfl, ?_, by simp, ?_⟩
    · intro i hi
      have hlen : i < m.length := lt_of_lt_of_le hi (min_le_left _ _)
      have hne : i ≠ min m.length size := Nat.ne_of_lt hi
      simp [hne, hi, List.getD_eq_getElem?_getD, List.getElem?_eq_getElem hlen]
    · intro i hi
      have hne : i ≠ min m.length size := Nat.ne_of_gt hi
      have hnlt : ¬ i < min m.length size := Nat.not_lt.mpr hi.le
      simp [hne, hnlt]

/-- Witness of C20: two pending messages `abc` and `d`, read with size 2. -/
theorem C20_readData_takes_oldest_message_witness :
    pendingTwo.m_ReadBufer = ['a', 'b', 'c'] :: [['d']] ∧
    (BLESerialCommunication.readData pendingTwo blankMemory 2).2.1.m_ReadBufer = [['d']] ∧
    (BLESerialCommunication.readData pendingTwo blankMemory 2).2.2 2 = Char.ofNat 0 :=
  ⟨rfl,
    ((C20_readData_takes_oldest_message pendingTwo blankMemory 2).2 ['a', 'b', 'c'] [['d']]
      rfl).2.1,
    ((C20_readData_takes_oldest_message pendingTwo blankMemory 2).2 ['a', 'b', 'c'] [['d']]
      rfl).2.2.2.2.1⟩

/-! ## The learned range of the range-tracking filter -/

theorem MinMaxFilter.update_eq (s : MinMaxFilter) (x : Int) :
    MinMaxFilter.update s x = ⟨min s.value_min x, max s.value_max x⟩ := by
  obtain ⟨lo, hi⟩ := s
  by_cases h1 : x < lo <;> by_cases h2 : x > hi <;>
    simp only [MinMaxFilter.update, h1, h2, if_true, if_false, MinMaxFilter.mk.injEq] <;>
    constructor <;> omega

theorem MinMaxFilter.updates_value_min (s : MinMaxFilter) (xs : List Int) :
    (∀ x ∈ xs, (MinMaxFilter.updates s xs).value_min ≤ x) ∧
    (MinMaxFilter.updates s xs).value_min ≤ s.value_min ∧
    ((MinMaxFilter.updates s xs).value_min = s.value_min ∨
      (MinMaxFilter.updates s xs).value_min ∈ xs) := by
  induction xs generalizing s with
  | nil => simp [MinMaxFilter.updates]
  | cons y ys ih =>
    have e : MinMaxFilter.updates s (y :: ys)
        = MinMaxFilter.updates (MinMaxFilter.update s y) ys := rfl
    obtain ⟨h1, h2, h3⟩ := ih (MinMaxFilter.update s y)
    rw [MinMaxFilter.update_eq] at h1 h2 h3
    rw [e, MinMaxFilter.update_eq]
    simp only at h2 h3
    refine ⟨?_, ?_, ?_⟩
    · intro x hx
      rcases List.mem_cons.mp hx with rfl | hx
      · exact le_trans h2 (min_le_right _ _)
      · exact h1 x hx
    · exact le_trans h2 (min_le_left _ _)
    · rcases h3 with h3 | h3
      · rcases min_choice s.value_min y with hc | hc
        · left; rw [h3, hc]
        · right; rw [h3, hc]; exact List.mem_cons_self _ _
      · right; exact List.mem_cons_of_mem _ h3

theorem MinMaxFilter.updates_value_max (s : MinMaxFilter) (xs : List Int) :
    (∀ x ∈ xs, x ≤ (MinMaxFilter.updates s xs).value_max) ∧
    s.value_max ≤ (MinMaxFilter.updates s xs).value_max ∧
    ((MinMaxFilter.updates s xs).value_max = s.value_max ∨
      (MinMaxFilter.updates s xs).value_max ∈ xs) := by
  induction xs generalizing s with
  | nil => simp [MinMaxFilter.updates]
  | cons y ys ih =>
    have e : MinMaxFilter.updates s (y :: ys)
        = MinMaxFilter.updates (MinMaxFilter.update s y) ys := rfl
    obtain ⟨h1, h2, h3⟩ := ih (MinMaxFilter.update s y)
    rw [MinMaxFilter.update_eq] at h1 h2 h3
    rw [e, MinMaxFilter.update_eq]
    simp only at h2 h3
    refine ⟨?_, ?_, ?_⟩
    · intro x hx
      rcases List.mem_cons.mp hx with rfl | hx
      · exact le_trans (le_max_right _ _) h2
      · exact h1 x hx
    · exact le_trans (le_max_left _ _) h2
    · rcases h3 with h3 | h3
      · rcases max_choice s.value_max y with hc | hc
        · left; rw [h3, hc]
        · right; rw [h3, hc]; exact List.mem_cons_self _ _
      · right; exact List.mem_cons_of_mem _ h3

/-- C21: for `MinMaxFilter<int, output_min, output_max>`, after a non-empty
sequence of `update` calls with samples `xs`, all in `[output_min,
output_max]`, applied to a fresh filter or to a filter just reset, the learned
`value_min` is the least of the samples (it is one of them and is below every
one) and the learned `value_max` is the greatest of the samples. -/
theorem C21_learned_range_is_observed_range (output_min output_max : Int) (s : MinMaxFilter)
    (xs : List Int) (hne : xs ≠ [])
    (hx : ∀ x ∈ xs, output_min ≤ x ∧ x ≤ output_max) :
    ((MinMaxFilter.updates (MinMaxFilter.init output_min output_max) xs).value_min ∈ xs ∧
      (∀ x ∈ xs, (MinMaxFilter.updates (MinMaxFilter.init output_min output_max) xs).value_min
        ≤ x) ∧
      (MinMaxFilter.updates (MinMaxFilter.init output_min output_max) xs).value_max ∈ xs ∧
      (∀ x ∈ xs, x
        ≤ (MinMaxFilter.updates (MinMaxFilter.init output_min output_max) xs).value_max)) ∧
    MinMaxFilter.updates (MinMaxFilter.reset output_min output_max s) xs
      = MinMaxFilter.updates (MinMaxFilter.init output_min output_max) xs := by
  refine ⟨?_, rfl⟩
  obtain ⟨a1, a2, a3⟩ := MinMaxFilter.updates_value_min (MinMaxFilter.init output_min output_max) xs
  obtain ⟨b1, b2, b3⟩ := MinMaxFilter.updates_value_max (MinMaxFilter.init output_min output_max) xs
  obtain ⟨y, hy⟩ := List.exists_mem_of_ne_nil xs hne
  refine ⟨?_, a1, ?_, b1⟩
  · rcases a3 with h | h
    · have h1 := a1 y hy
      have h2 := (hx y hy).2
      have e : (MinMaxFilter.init output_min output_max).value_min = output_max := rfl
      rw [e] at h
      have : y = (MinMaxFilter.updates (MinMaxFilter.init output_min output_max) xs).value_min := by
        omega
      rw [← this]
      exact hy
    · exact h
  · rcases b3 with h | h
    · have h1 := b1 y hy
      have h2 := (hx y hy).1
      have e : (MinMaxFilter.init output_min output_max).value_max = output_min := rfl
      rw [e] at h
      have : y = (MinMaxFilter.updates (MinMaxFilter.init output_min output_max) xs).value_max := by
        omega
      rw [← this]
      exact hy
    · exact h

/-- Witness of C21: the samples 1000, 3000, 2000 on `MinMaxFilter<int, 0, 4095>`. -/
theorem C21_learned_range_is_observed_range_witness :
    ([1000, 3000, 2000] : List Int) ≠ [] ∧
    (∀ x ∈ ([1000, 3000, 2000] : List Int), (0 : Int) ≤ x ∧ x ≤ 4095) ∧
    (MinMaxFilter.updates (MinMaxFilter.init 0 4095) [1000, 3000, 2000]).value_min
      ∈ ([1000, 3000, 2000] : List Int) :=
  have hne : ([1000, 3000, 2000] : List Int) ≠ [] := by decide
  have hx : ∀ x ∈ ([1000, 3000, 2000] : List Int), (0 : Int) ≤ x ∧ x ≤ 4095 := by decide
  ⟨hne, hx, (C21_learned_range_is_observed_range 0 4095 ⟨7, 9⟩ [1000, 3000, 2000] hne hx).1.1⟩

theorem truncToInt_intCast (n : Int) : truncToInt (n : ℚ) = n := by
  have key := truncToInt_intCast_div n 1 (by decide)
  simpa using key

theorem floatToInt_of_large (I : IntRange) (q : ℚ) (t : Int) (ht : truncToInt q = t)
    (h : I.INT_MAX < t) : floatToInt I q = none := by
  have : ¬ (I.INT_MIN ≤ truncToInt q ∧ truncToInt q ≤ I.INT_MAX) := by
    rw [ht]
    omega
  simp [floatToInt, this]

theorem MinMaxFilter.filter_monotone_of_fit (I : IntRange) (output_min output_max : Int)
    (h : output_min ≤ output_max) (s : MinMaxFilter) (hs : s.value_min < s.value_max)
    (r1 r2 a b : Int) (hr : r1 ≤ r2)
    (ha : MinMaxFilter.filter I output_min output_max s r1 = some a)
    (hb : MinMaxFilter.filter I output_min output_max s r2 = some b) : a ≤ b := by
  have hD : (0 : ℚ) < (s.value_max : ℚ) - s.value_min := by
    have : (s.value_min : ℚ) < (s.value_max : ℚ) := by exact_mod_cast hs
    linarith
  have hR : (0 : ℚ) ≤ (output_max : ℚ) - output_min := by
    have : (output_min : ℚ) ≤ (output_max : ℚ) := by exact_mod_cast h
    linarith
  rw [MinMaxFilter.filter_eq_of_lt I output_min output_max s hs] at ha hb
  unfold floatToInt at ha hb
  split_ifs at ha hb <;>
    simp only [Option.map_some', Option.map_none', Option.some.injEq, reduceCtorEq] at ha hb
  rw [← ha, ← hb]
  apply constrain_mono _ _ h
  apply truncToInt_mono
  have hr' : (r1 : ℚ) ≤ (r2 : ℚ) := by exact_mod_cast hr
  have h1 : ((r1 : ℚ) - s.value_min) * ((output_max : ℚ) - output_min)
      ≤ ((r2 : ℚ) - s.value_min) * ((output_max : ℚ) - output_min) :=
    mul_le_mul_of_nonneg_right (by linarith) hR
  have h2 := div_le_div_of_nonneg_right h1 hD.le
  linarith

/-- C24 (code at the failing inputs): `filter` converts the remapped float to
`int` before it constrains it. On the AVR build (`int` of 16 bits,
`MinMaxFilter<int, 0, 1023>`) with the range `[500, 510]` learned from the
samples 500 and 510, the in-range input 900 remaps to 40920, which no 16-bit
`int` holds, so `filter(900)` is undefined. On the ESP32 build
(`MinMaxFilter<int, 0, 4095>`, range `[1000, 3000]`) `filter(3000) = 4095`
while `filter(2000000000)` is undefined: the remap 4094997952.5 exceeds
`INT_MAX`. -/
theorem C24_filter_undefined_when_remap_exceeds_int :
    MinMaxFilter.updates (MinMaxFilter.init 0 1023) [500, 510] = ⟨500, 510⟩ ∧
    MinMaxFilter.filter int16 0 1023 ⟨500, 510⟩ 900 = none ∧
    MinMaxFilter.filter int32 0 4095 ⟨1000, 3000⟩ 3000 = some 4095 ∧
    MinMaxFilter.filter int32 0 4095 ⟨1000, 3000⟩ 2000000000 = none := by
  refine ⟨?_, ?_, ?_, ?_⟩
  · simp [MinMaxFilter.updates, MinMaxFilter.update, MinMaxFilter.init]
  · rw [MinMaxFilter.filter_eq_of_lt int16 0 1023 ⟨500, 510⟩ (by decide),
      floatToInt_of_large int16 _ 40920 (by norm_num [truncToInt]) (by decide)]
    rfl
  · exact (MinMaxFilter.filter_eval int32 0 4095 ⟨1000, 3000⟩ (by decide) 3000 4095
      (by norm_num [truncToInt]) (by decide) (by decide)).trans (by decide)
  · rw [MinMaxFilter.filter_eq_of_lt int32 0 4095 ⟨1000, 3000⟩ (by decide),
      floatToInt_of_large int32 _ 4094997952 (by norm_num [truncToInt]; decide) (by decide)]
    rfl

theorem MinMaxFilter.updates_eq_of_same_samples (s : MinMaxFilter) (xs ys : List Int)
    (h : ∀ x, x ∈ xs ↔ x ∈ ys) :
    MinMaxFilter.updates s xs = MinMaxFilter.updates s ys := by
  obtain ⟨a1, a2, a3⟩ := MinMaxFilter.updates_value_min s xs
  obtain ⟨b1, b2, b3⟩ := MinMaxFilter.updates_value_min s ys
  obtain ⟨c1, c2, c3⟩ := MinMaxFilter.updates_value_max s xs
  obtain ⟨d1, d2, d3⟩ := MinMaxFilter.updates_value_max s ys
  have hmin : (MinMaxFilter.updates s xs).value_min = (MinMaxFilter.updates s ys).value_min := by
    apply le_antisymm
    · rcases b3 with e | e
      · rw [e]; exact a2
      · exact a1 _ ((h _).mpr e)
    · rcases a3 with e | e
      · rw [e]; exact b2
      · exact b1 _ ((h _).mp e)
  have hmax : (MinMaxFilter.updates s xs).value_max = (MinMaxFilter.updates s ys).value_max := by
    apply le_antisymm
    · rcases c3 with e | e
      · rw [e]; exact d2
      · exact d1 _ ((h _).mp e)
    · rcases d3 with e | e
      · rw [e]; exact c2
      · exact c1 _ ((h _).mpr e)
  generalize MinMaxFilter.updates s xs = A at hmin hmax
  generalize MinMaxFilter.updates s ys = B at hmin hmax
  obtain ⟨alo, ahi⟩ := A
  obtain ⟨blo, bhi⟩ := B
  simp only at hmin hmax
  rw [hmin, hmax]

/-- C25: for `MinMaxFilter`, in every state `s` and for all samples `a`, `b`,
`update` commutes (`update(update(s, a), b) = update(update(s, b), a)`) and is
idempotent (`update(update(s, a), a) = update(s, a)`); and two sample
sequences with the same set of samples lead from `s` to the same state. -/
theorem C25_update_commutes_and_is_idempotent (s : MinMaxFilter) (a b : Int) :
    MinMaxFilter.update (MinMaxFilter.update s a) b
      = MinMaxFilter.update (MinMaxFilter.update s b) a ∧
    MinMaxFilter.update (MinMaxFilter.update s a) a = MinMaxFilter.update s a ∧
    (∀ xs ys : List Int, (∀ x, x ∈ xs ↔ x ∈ ys) →
      MinMaxFilter.updates s xs = MinMaxFilter.updates s ys) := by
  refine ⟨?_, ?_, fun xs ys h => MinMaxFilter.updates_eq_of_same_samples s xs ys h⟩
  · simp only [MinMaxFilter.update_eq, MinMaxFilter.mk.injEq]
    constructor <;> omega
  · simp only [MinMaxFilter.update_eq, MinMaxFilter.mk.injEq]
    constructor <;> omega

/-- Witness of C25: the sequences 1000, 3000, 3000 and 3000, 1000 from the
fresh state of `MinMaxFilter<int, 0, 4095>`. -/
theorem C25_update_commutes_and_is_idempotent_witness :
    (∀ x : Int, x ∈ ([1000, 3000, 3000] : List Int) ↔ x ∈ ([3000, 1000] : List Int)) ∧
    MinMaxFilter.updates (MinMaxFilter.init 0 4095) [1000, 3000, 3000]
      = MinMaxFilter.updates (MinMaxFilter.init 0 4095) [3000, 1000] :=
  have h : ∀ x : Int, x ∈ ([1000, 3000, 3000] : List Int) ↔ x ∈ ([3000, 1000] : List Int) := by
    intro x
    simp only [List.mem_cons, List.mem_singleton, List.not_mem_nil, or_false]
    tauto
  ⟨h, (C25_update_commutes_and_is_idempotent (MinMaxFilter.init 0 4095) 1000 3000).2.2
    [1000, 3000, 3000] [3000, 1000] h⟩

/-! ## Learned extremes of the centre-point filter -/

/-- C22 (code at the failing input): on the configured
`CenterPointDeviationFilter<int, 270, 20, 0, 4095>` in the seeded state
(270, 0), whose samples 2000, 100, 200 are 131, 6, 13 in sensor units:
`update(2000)` leaves `range_min` at 270 although 131 is below it, because the
raw 2000 is compared with 270; and after `update(100)` the call `update(200)`
lowers `range_max` from 131 to 13, because the raw 200 exceeds 131. -/
theorem C22_center_point_update_compares_raw_with_sensor_units :
    [(2000 : Int), 100, 200].map (CenterPointDeviationFilter.sensorUnits 270 0 4095)
      = [some 131, some 6, some 13] ∧
    CenterPointDeviationFilter.updates 270 0 4095 (CenterPointDeviationFilter.init 270) [2000]
      = some ⟨270, 131⟩ ∧
    CenterPointDeviationFilter.updates 270 0 4095 (CenterPointDeviationFilter.init 270)
      [2000, 100] = some ⟨6, 131⟩ ∧
    CenterPointDeviationFilter.updates 270 0 4095 (CenterPointDeviationFilter.init 270)
      [2000, 100, 200] = some ⟨6, 13⟩ := by
  have s1 : CenterPointDeviationFilter.sensorUnits 270 0 4095 2000 = some 131 := by
    norm_num [CenterPointDeviationFilter.sensorUnits, accurateMap, truncToInt]
    decide
  have s2 : CenterPointDeviationFilter.sensorUnits 270 0 4095 100 = some 6 := by
    norm_num [CenterPointDeviationFilter.sensorUnits, accurateMap, truncToInt]
    decide
  have s3 : CenterPointDeviationFilter.sensorUnits 270 0 4095 200 = some 13 := by
    norm_num [CenterPointDeviationFilter.sensorUnits, accurateMap, truncToInt]
    decide
  have u1 : CenterPointDeviationFilter.update 270 0 4095 ⟨270, 0⟩ 2000 = some ⟨270, 131⟩ := by
    norm_num [CenterPointDeviationFilter.update, accurateMap, truncToInt]
    decide
  have u2 : CenterPointDeviationFilter.update 270 0 4095 ⟨270, 131⟩ 100 = some ⟨6, 131⟩ := by
    norm_num [CenterPointDeviationFilter.update, accurateMap, truncToInt]
    decide
  have u3 : CenterPointDeviationFilter.update 270 0 4095 ⟨6, 131⟩ 200 = some ⟨6, 13⟩ := by
    norm_num [CenterPointDeviationFilter.update, accurateMap, truncToInt]
    decide
  refine ⟨by simp [s1, s2, s3], ?_, ?_, ?_⟩
  · simp [CenterPointDeviationFilter.updates, CenterPointDeviationFilter.init, u1]
  · simp [CenterPointDeviationFilter.updates, CenterPointDeviationFilter.init, u1, u2]
  · simp [CenterPointDeviationFilter.updates, CenterPointDeviationFilter.init, u1, u2, u3]

/-! ## Common-mode offset of the composite sensors -/

/-- C23 (as stated, refuted): on `HallEffectCurlMultiSensor<0, 4095>` the
readings (1000, 1000) give 6189 and the readings (1001, 1001), the same with
the common offset 1, give 6187. -/
theorem C23_curl_pair_does_not_cancel_common_offset :
    ((HallEffectCurlMultiSensor.cls 0 4095).getValue hallPair (1000, 1000)).1 = some 6189 ∧
    ((HallEffectCurlMultiSensor.cls 0 4095).getValue hallPair (1000 + 1, 1000 + 1)).1
      = some 6187 ∧
    ((HallEffectCurlMultiSensor.cls 0 4095).getValue hallPair (1000 + 1, 1000 + 1)).1
      ≠ ((HallEffectCurlMultiSensor.cls 0 4095).getValue hallPair (1000, 1000)).1 := by
  have e1 : ((HallEffectCurlMultiSensor.cls 0 4095).getValue hallPair (1000, 1000)).1
      = some 6189 := by
    have e := HallEffectCurlMultiSensor.curl_getValue_eq 0 4095 hallPair 1000 1000
    have e2 : (4095 : Int) + ((Int.tdiv (0 + 4095) 2 - 1000) + (Int.tdiv (0 + 4095) 2 - 1000))
        = 6189 := by decide
    rw [e2] at e
    exact e
  have e3 : ((HallEffectCurlMultiSensor.cls 0 4095).getValue hallPair (1000 + 1, 1000 + 1)).1
      = some 6187 := by
    have e := HallEffectCurlMultiSensor.curl_getValue_eq 0 4095 hallPair (1000 + 1) (1000 + 1)
    have e2 : (4095 : Int) + ((Int.tdiv (0 + 4095) 2 - (1000 + 1))
        + (Int.tdiv (0 + 4095) 2 - (1000 + 1))) = 6187 := by decide
    rw [e2] at e
    exact e
  refine ⟨e1, e3, ?_⟩
  rw [e1, e3]
  decide

/-- C23 (amended): for all sub-sensor readings `l`, `r` and every integer
offset `d`, `HallEffectSplayMultiSensor` computes from `(l + d, r + d)` the
value it computes from `(l, r)`, and `HallEffectCurlMultiSensor` computes from
`(l + d, r + d)` the value it computes from `(l, r)` less `2 * d`. -/
theorem C23_splay_cancels_offset_and_curl_doubles_it (min max : Int)
    (s : Sensor HallEffectPair) (l r d : Int) :
    ((HallEffectSplayMultiSensor.cls min max).getValue s (l + d, r + d)).1
      = ((HallEffectSplayMultiSensor.cls min max).getValue s (l, r)).1 ∧
    ((HallEffectCurlMultiSensor.cls min max).getValue s (l + d, r + d)).1
      = (((HallEffectCurlMultiSensor.cls min max).getValue s (l, r)).1).map
          fun v => v - 2 * d := by
  have a1 := HallEffectSplayMultiSensor.splay_getValue_eq min max s (l + d) (r + d)
  have a2 := HallEffectSplayMultiSensor.splay_getValue_eq min max s l r
  have b1 := HallEffectCurlMultiSensor.curl_getValue_eq min max s (l + d) (r + d)
  have b2 := HallEffectCurlMultiSensor.curl_getValue_eq min max s l r
  constructor
  · show (HallEffectSplayMultiSensor.getValue min max s (l + d, r + d)).1
      = (HallEffectSplayMultiSensor.getValue min max s (l, r)).1
    rw [a1, a2]
    congr 1
    ring
  · show (HallEffectCurlMultiSensor.getValue min max s (l + d, r + d)).1
      = ((HallEffectCurlMultiSensor.getValue min max s (l, r)).1).map fun v => v - 2 * d
    rw [b1, b2, Option.map_some']
    congr 1
    ring

/-! ## The terminator written by `readData` -/

theorem BLESerialCommunication.readDataWrites_safe_of_short (c : BLESerialCommunication)
    (m : List Char) (rest : List (List Char)) (buffer_size : Nat)
    (hc : c.m_ReadBufer = m :: rest) (hm : m.length < buffer_size) :
    ∀ i ∈ BLESerialCommunication.readDataWrites c buffer_size, i < buffer_size := by
  intro i hi
  simp only [BLESerialCommunication.readDataWrites, hc, List.mem_append, List.mem_range,
    List.mem_singleton] at hi
  have : min m.length buffer_size = m.length := min_eq_left hm.le
  omega

theorem BLESerialCommunication.readDataWrites_of_long (c : BLESerialCommunication)
    (m : List Char) (rest : List (List Char)) (buffer_size : Nat)
    (hc : c.m_ReadBufer = m :: rest) (hm : buffer_size ≤ m.length) :
    buffer_size ∈ BLESerialCommunication.readDataWrites c buffer_size ∧
    (BLESerialCommunication.readData c (fun _ => 'z') buffer_size).2.2 buffer_size
      = Char.ofNat 0 := by
  have e : min m.length buffer_size = buffer_size := min_eq_right hm
  constructor
  · simp [BLESerialCommunication.readDataWrites, hc, e]
  · simp [BLESerialCommunication.readData, hc, e]

/-- C26 (code at the failing input): with the pending message `abc` and
`buffer_size = 2`, `readData` stores to the indices 0, 1 and 2 of `input`:
the NUL goes to `input[2]`, the index `buffer_size` itself, one past the end
of a buffer of two bytes, and the byte there changes from `z` to NUL. -/
theorem C26_readData_writes_terminator_past_the_buffer :
    BLESerialCommunication.readDataWrites pendingTwo 2 = [0, 1, 2] ∧
    ¬ (∀ i ∈ BLESerialCommunication.readDataWrites pendingTwo 2, i < 2) ∧
    blankMemory 2 = 'z' ∧
    (BLESerialCommunication.readData pendingTwo blankMemory 2).2.2 2 = Char.ofNat 0 := by
  have e : BLESerialCommunication.readDataWrites pendingTwo 2 = [0, 1, 2] := by decide
  refine ⟨e, ?_, rfl, ?_⟩
  · rw [e]
    decide
  · simp [BLESerialCommunication.readData, pendingTwo]

end OpenGloves
